import Mathlib

/-!
# Request expansion in SolveSpace (`src/request.cpp`)

A shallow embedding of the request-to-entity expansion of `src/request.cpp`:
the static table `EntReqTable::Table`, its lookups, `Request::Generate`,
`Request::IndexOfPoint` and `Request::AddParam`.

Conventions of the embedding.

* Handles are records with one field `v`, a 32-bit unsigned value kept as a `Nat`.
* The `int` values (`points`, `extraPoints`) are integers in the 32-bit signed range;
  the one addition of the source, in `CopyEntityInfo`, wraps around on 32 bits as the
  compiled code does.
* A store past the end of the point-slot array is undefined behaviour: the outcome
  `undefined` records the collections as they stood when it happened, and nothing is
  stated about what follows.
* `request.cpp` includes `solvespace.h`; what it uses from the headers (the handle
  helpers, the enumerations, the records, `IdList::Add`, two constants) is modelled
  here, each such definition saying so.
* A collection is the log of the objects added to it, oldest first.
* `ssassert` aborts: the outcome `fatal` records the message and the collections
  as they stood when the assertion failed.
-/

namespace SolveSpace

/-! ## Handles -/

/-- Handle of a request (`hRequest`). -/
structure hRequest where
  v : Nat
  deriving DecidableEq, Repr

/-- Handle of an entity (`hEntity`). -/
structure hEntity where
  v : Nat
  deriving DecidableEq, Repr

/-- Handle of a parameter (`hParam`). -/
structure hParam where
  v : Nat
  deriving DecidableEq, Repr

/-- Handle of a group (`hGroup`). -/
structure hGroup where
  v : Nat
  deriving DecidableEq, Repr

/-- Handle of a style (`hStyle`). -/
structure hStyle where
  v : Nat
  deriving DecidableEq, Repr

/-- Modelled from the spec: `hRequest::entity(int)` is an inline helper of the header
`sketch.h`, which is not among the sources. The spec calls it "a pure, deterministic
numeric combination" deriving "entity at offset k" inside the sub-address space owned
by the request handle; the model is the 32-bit combination `(v << 16) | (uint32_t)i`,
the request index in the upper half-word and the sub-offset in the lower one. -/
def hRequest.entity (h : hRequest) (i : Nat) : hEntity :=
  ⟨((h.v <<< 16) % 2 ^ 32) ||| (i % 2 ^ 32)⟩

/-- Modelled from the spec: `hRequest::param(int)` is an inline helper of the header
`sketch.h`, which is not among the sources; same combination as `hRequest.entity`,
`(v << 16) | (uint32_t)i` on 32 bits. -/
def hRequest.param (h : hRequest) (i : Nat) : hParam :=
  ⟨((h.v <<< 16) % 2 ^ 32) ||| (i % 2 ^ 32)⟩

/-- Modelled from the spec: the constant `MAX_POINTS_IN_ENTITY` is defined in the header
`sketch.h`, which is not among the sources: "the upper bound on points per entity",
the length of the point-slot array of an entity. -/
def MAX_POINTS_IN_ENTITY : Nat := 12

/-! ## Kinds -/

/-- Modelled from the spec: the enumeration `Request::Type` of request kinds is declared
in `sketch.h`, which is not among the sources; the constructors are the enumerators that `request.cpp` names, `zero` is the value
`(Request::Type)0` of the table sentinel, and `other n` stands for any further value
of the enumeration. -/
inductive RequestType where
  | zero
  | WORKPLANE
  | DATUM_POINT
  | LINE_SEGMENT
  | CUBIC
  | CUBIC_PERIODIC
  | CIRCLE
  | ARC_OF_CIRCLE
  | TTF_TEXT
  | other (n : Nat)
  deriving DecidableEq, Repr

/-- Modelled from the spec: the enumeration `Entity::Type` of entity kinds is declared
in `sketch.h`, which is not among the sources; the constructors are the enumerators that `request.cpp` names, `zero` is the value
`(Entity::Type)0`, and `other n` stands for any further value of the enumeration. -/
inductive EntityType where
  | zero
  | POINT_IN_3D
  | POINT_IN_2D
  | NORMAL_IN_3D
  | NORMAL_IN_2D
  | DISTANCE
  | WORKPLANE
  | LINE_SEGMENT
  | CUBIC
  | CUBIC_PERIODIC
  | CIRCLE
  | ARC_OF_CIRCLE
  | TTF_TEXT
  | other (n : Nat)
  deriving DecidableEq, Repr

/-! ## Records -/

/-- Modelled from the spec: the record `Param` is declared in `sketch.h`, which is not
among the sources ("Attributes: handle only"); `Param pa = {}` zeroes the rest, and the
handle is the only field `request.cpp` touches. -/
structure Param where
  h : hParam
  deriving DecidableEq, Repr

/-- Modelled from the spec: the record `Entity` is declared in `sketch.h`, which is not
among the sources; the fields are those that `request.cpp` reads or writes. `point` is
the array of "up to a fixed maximum number of point-handle slots", of length
`MAX_POINTS_IN_ENTITY`; `param` is the array of parameter slots, of which `request.cpp`
stores to indices `0..3` only, so four slots are kept. A zero handle is an empty slot. -/
structure Entity where
  h : hEntity
  type : EntityType
  extraPoints : Int
  group : hGroup
  style : hStyle
  workplane : hEntity
  construction : Bool
  str : String
  font : String
  point : List hEntity
  normal : hEntity
  distance : hEntity
  param : List hParam
  deriving DecidableEq, Repr

/-- The value-initialised entity of `Entity e = {}`: every field zero. -/
def Entity.zeroed : Entity :=
  { h := ⟨0⟩, type := EntityType.zero, extraPoints := 0, group := ⟨0⟩, style := ⟨0⟩,
    workplane := ⟨0⟩, construction := false, str := "", font := "",
    point := List.replicate MAX_POINTS_IN_ENTITY ⟨0⟩, normal := ⟨0⟩, distance := ⟨0⟩,
    param := List.replicate 4 ⟨0⟩ }

/-- Modelled from the spec: the sentinel `Entity::FREE_IN_3D` is a constant defined
outside `request.cpp`, "a well-known constant representing no workplane / free in 3D
space, compared by value against a request's workplane field"; the model takes the
zero handle. -/
def Entity.FREE_IN_3D : hEntity := ⟨0⟩

/-- The store `e.point[i] = he` for `i` inside the array. `Generate` reaches a store
past the end of the array only when the point count exceeds `MAX_POINTS_IN_ENTITY`, and
`generateBody` ends in `Outcome.undefined` at that store. -/
def Entity.setPoint (e : Entity) (i : Nat) (he : hEntity) : Entity :=
  { e with point := e.point.set i he }

/-- The store `e.param[i] = hp`. -/
def Entity.setParam (e : Entity) (i : Nat) (hp : hParam) : Entity :=
  { e with param := e.param.set i hp }

/-- The read `e.point[i]`, the zero handle outside the array. -/
def Entity.pointAt (e : Entity) (i : Nat) : hEntity := e.point.getD i ⟨0⟩

/-- The read `e.param[i]`, the zero handle outside the array. -/
def Entity.paramAt (e : Entity) (i : Nat) : hParam := e.param.getD i ⟨0⟩

/-- Modelled from the spec: the record `Request` is declared in `sketch.h`, which is not
among the sources; the fields are those that `request.cpp` reads. -/
structure Request where
  h : hRequest
  type : RequestType
  extraPoints : Int
  group : hGroup
  style : hStyle
  workplane : hEntity
  construction : Bool
  str : String
  font : String
  deriving DecidableEq, Repr

/-! ## The table and its lookups -/

namespace EntReqTable

/-- A row of the table (`EntReqTable::TableEntry`); `description = none` is `NULL`. -/
structure TableEntry where
  reqType : RequestType
  entType : EntityType
  points : Int
  useExtraPoints : Bool
  hasNormal : Bool
  hasDistance : Bool
  description : Option String
  deriving DecidableEq, Repr

/-- The table `EntReqTable::Table`, sentinel row included. -/
def Table : List TableEntry :=
  [ ⟨.WORKPLANE,      .WORKPLANE,      1, false, true,  false, some "workplane"⟩,
    ⟨.DATUM_POINT,    .zero,           1, false, false, false, some "datum-point"⟩,
    ⟨.LINE_SEGMENT,   .LINE_SEGMENT,   2, false, false, false, some "line-segment"⟩,
    ⟨.CUBIC,          .CUBIC,          4, true,  false, false, some "cubic-bezier"⟩,
    ⟨.CUBIC_PERIODIC, .CUBIC_PERIODIC, 3, true,  false, false, some "periodic-cubic"⟩,
    ⟨.CIRCLE,         .CIRCLE,         1, false, true,  true,  some "circle"⟩,
    ⟨.ARC_OF_CIRCLE,  .ARC_OF_CIRCLE,  3, false, true,  false, some "arc-of-circle"⟩,
    ⟨.TTF_TEXT,       .TTF_TEXT,       2, false, true,  false, some "ttf-text"⟩,
    ⟨.zero,           .zero,           0, false, false, false, none⟩ ]

/-- The rows that the loops `for(i = 0; Table[i].reqType != 0; i++)` visit: the rows
before the first one whose request kind is zero. -/
def rowsOf : List TableEntry → List TableEntry
  | [] => []
  | te :: rest => if te.reqType = RequestType.zero then [] else te :: rowsOf rest

/-- The rows of `Table` before the sentinel. -/
def rows : List TableEntry := rowsOf Table

/-- The loop of `GetRequestInfo` (and of `DescriptionForRequest`) over a table: stop
at the sentinel, return the first row whose request kind is `req`. -/
def findRequest (req : RequestType) : List TableEntry → Option TableEntry
  | [] => none
  | te :: rest =>
    if te.reqType = RequestType.zero then none
    else if req = te.reqType then some te
    else findRequest req rest

/-- The loop of `GetEntityInfo` over a table: stop at the sentinel, return the first
row whose entity kind is `ent`. -/
def findEntity (ent : EntityType) : List TableEntry → Option TableEntry
  | [] => none
  | te :: rest =>
    if te.reqType = RequestType.zero then none
    else if ent = te.entType then some te
    else findEntity ent rest

/-- What `CopyEntityInfo` can write through its out-pointers. -/
structure Info where
  ent : EntityType
  req : RequestType
  pts : Int
  hasNormal : Bool
  hasDistance : Bool
  deriving DecidableEq, Repr

/-- The value of a 32-bit `int` after an arithmetic operation whose exact result is
`x`: the two's-complement wrap-around into `[-2^31, 2^31)`. -/
def wrapInt32 (x : Int) : Int := (x + 2 ^ 31) % 2 ^ 32 - 2 ^ 31

/-- `EntReqTable::CopyEntityInfo`: the values stored through the non-null pointers. The
addition `points += extraPoints` is an addition of `int`s. -/
def CopyEntityInfo (te : TableEntry) (extraPoints : Int) : Info :=
  let points := te.points
  let points := if te.useExtraPoints then wrapInt32 (points + extraPoints) else points
  { ent := te.entType, req := te.reqType, pts := points,
    hasNormal := te.hasNormal, hasDistance := te.hasDistance }

/-- `EntReqTable::GetRequestInfo`: `none` is the return value `false` (nothing is
written), `some info` is `true` with `ent`, `pts`, `hasNormal`, `hasDistance` written
(the `req` pointer is passed as `NULL`). -/
def GetRequestInfo (req : RequestType) (extraPoints : Int) : Option Info :=
  (findRequest req Table).map (fun te => CopyEntityInfo te extraPoints)

/-- `EntReqTable::GetEntityInfo`: `none` is the return value `false`, `some info` is
`true` with `req`, `pts`, `hasNormal`, `hasDistance` written (the `ent` pointer is
passed as `NULL`). -/
def GetEntityInfo (ent : EntityType) (extraPoints : Int) : Option Info :=
  (findEntity ent Table).map (fun te => CopyEntityInfo te extraPoints)

/-- `EntReqTable::DescriptionForRequest`: the description of the first row whose request
kind is `req` (`none` is a `NULL` description), and `"???"` when the loop reaches the
sentinel. -/
def DescriptionForRequest (req : RequestType) : Option String :=
  match findRequest req Table with
  | some te => te.description
  | none => some "???"

/-- `EntReqTable::GetRequestForEntity`: the assertion on the result of
`GetEntityInfo(ent, 0, &req, NULL, NULL, NULL)`, then `req`; `.error` is the failed
`ssassert` with its message. -/
def GetRequestForEntity (ent : EntityType) : Except String RequestType :=
  match GetEntityInfo ent 0 with
  | some info => .ok info.req
  | none => .error "No entity for request"

end EntReqTable

/-! ## Expansion -/

/-- Modelled from the spec: `IdList::Add` belongs to the container of `dsc.h`, which is
not among the sources; the spec gives the collections as sinks that support
"`Add(entity) -> void`, append-only from this core's perspective". The model appends
the object at the end of the log. -/
@[simp] def IdList.Add {α : Type} (l : List α) (t : α) : List α := l ++ [t]

/-- The two collections that `Generate` writes to, each the log of what was added. -/
structure Sketch where
  entity : List Entity
  param : List Param
  deriving DecidableEq, Repr

/-- How a call ends: it returns, or an `ssassert` fails with the given message, or it
runs into undefined behaviour (a store past the end of an array); in each case with
the collections as they stand at that moment. -/
inductive Outcome where
  | done (sk : Sketch)
  | fatal (msg : String) (sk : Sketch)
  | undefined (sk : Sketch)
  deriving DecidableEq, Repr

/-- The collections an outcome carries. -/
def Outcome.sketch : Outcome → Sketch
  | .done sk => sk
  | .fatal _ sk => sk
  | .undefined sk => sk

/-- `entity->Add(&e)`. -/
def Sketch.addEntity (sk : Sketch) (e : Entity) : Sketch :=
  { sk with entity := IdList.Add sk.entity e }

namespace Request

/-- `Request::AddParam`: add a zeroed parameter with handle `hp`, return `hp`. -/
def AddParam (sk : Sketch) (hp : hParam) : Sketch × hParam :=
  let pa : Param := { h := hp }
  ({ sk with param := IdList.Add sk.param pa }, hp)

/-- The locals of `Generate` that the point loop updates: the collections and the
primary entity `e` under construction. -/
structure GenState where
  sk : Sketch
  e : Entity
  deriving DecidableEq, Repr

/-- One iteration of the loop `for(i = 0; i < points; i++)` of `Generate`. -/
def pointIter (r : Request) (et : EntityType) (st : GenState) (i : Nat) : GenState :=
  let p := Entity.zeroed
  let p := { p with workplane := r.workplane }
  let p := { p with h := r.h.entity (i + (if et ≠ EntityType.zero then 1 else 0)) }
  let p := { p with group := r.group }
  let p := { p with style := r.style }
  if r.workplane.v = Entity.FREE_IN_3D.v then
    let p := { p with type := EntityType.POINT_IN_3D }
    let (sk, h0) := AddParam st.sk (r.h.param (16 + 3 * i + 0))
    let p := p.setParam 0 h0
    let (sk, h1) := AddParam sk (r.h.param (16 + 3 * i + 1))
    let p := p.setParam 1 h1
    let (sk, h2) := AddParam sk (r.h.param (16 + 3 * i + 2))
    let p := p.setParam 2 h2
    { sk := sk.addEntity p, e := st.e.setPoint i p.h }
  else
    let p := { p with type := EntityType.POINT_IN_2D }
    let (sk, h0) := AddParam st.sk (r.h.param (16 + 3 * i + 0))
    let p := p.setParam 0 h0
    let (sk, h1) := AddParam sk (r.h.param (16 + 3 * i + 1))
    let p := p.setParam 1 h1
    { sk := sk.addEntity p, e := st.e.setPoint i p.h }

/-- The loop `for(i = 0; i < points; i++)`: no iteration when `points ≤ 0`. -/
def pointLoop (r : Request) (et : EntityType) (points : Int) (st : GenState) : GenState :=
  (List.range points.toNat).foldl (pointIter r et) st

/-- The block `if(hasNormal) { ... }` of `Generate`; the assertion comes after the
parameters of a 3D normal are added and before the normal itself is. -/
def normalBlock (r : Request) (points : Int) (st : GenState) : Except (String × Sketch) GenState :=
  let n := Entity.zeroed
  let n := { n with workplane := r.workplane }
  let n := { n with h := r.h.entity 32 }
  let n := { n with group := r.group }
  let n := { n with style := r.style }
  let (sk, n) :=
    if r.workplane.v = Entity.FREE_IN_3D.v then
      let n := { n with type := EntityType.NORMAL_IN_3D }
      let (sk, h0) := AddParam st.sk (r.h.param (32 + 0))
      let n := n.setParam 0 h0
      let (sk, h1) := AddParam sk (r.h.param (32 + 1))
      let n := n.setParam 1 h1
      let (sk, h2) := AddParam sk (r.h.param (32 + 2))
      let n := n.setParam 2 h2
      let (sk, h3) := AddParam sk (r.h.param (32 + 3))
      let n := n.setParam 3 h3
      (sk, n)
    else
      (st.sk, { n with type := EntityType.NORMAL_IN_2D })
  if points ≥ 1 then
    let n := n.setPoint 0 (st.e.pointAt 0)
    .ok { sk := sk.addEntity n, e := { st.e with normal := n.h } }
  else
    .error ("Positioning a normal requires a point", sk)

/-- The block `if(hasDistance) { ... }` of `Generate`. -/
def distanceBlock (r : Request) (st : GenState) : GenState :=
  let d := Entity.zeroed
  let d := { d with workplane := r.workplane }
  let d := { d with h := r.h.entity 64 }
  let d := { d with group := r.group }
  let d := { d with style := r.style }
  let d := { d with type := EntityType.DISTANCE }
  let (sk, h0) := AddParam st.sk (r.h.param 64)
  let d := d.setParam 0 h0
  { sk := sk.addEntity d, e := { st.e with distance := d.h } }

/-- The body of `Generate` from line 98 on, over the locals `et`, `points`,
`hasNormal`, `hasDistance` as they stand after the call of `GetRequestInfo`. When
`points` exceeds `MAX_POINTS_IN_ENTITY` the loop reaches `i = MAX_POINTS_IN_ENTITY`,
adds that point and its parameters, and the store `e.point[i] = p.h` falls outside the
array `point[MAX_POINTS_IN_ENTITY]`: the run is undefined from there. -/
def generateBody (r : Request) (et : EntityType) (points : Int) (hasNormal hasDistance : Bool)
    (sk : Sketch) : Outcome :=
  let e := Entity.zeroed
  let e := { e with type := et }
  let e := { e with extraPoints := r.extraPoints }
  let e := { e with group := r.group }
  let e := { e with style := r.style }
  let e := { e with workplane := r.workplane }
  let e := { e with construction := r.construction }
  let e := { e with str := r.str }
  let e := { e with font := r.font }
  let e := { e with h := r.h.entity 0 }
  if (MAX_POINTS_IN_ENTITY : Int) < points then
    .undefined (pointLoop r et (MAX_POINTS_IN_ENTITY + 1) { sk := sk, e := e }).sk
  else
  let st := pointLoop r et points { sk := sk, e := e }
  match (if hasNormal then normalBlock r points st else .ok st) with
  | .error (msg, sk) => .fatal msg sk
  | .ok st =>
    let st := if hasDistance then distanceBlock r st else st
    if et ≠ EntityType.zero then .done (st.sk.addEntity st.e) else .done st.sk

/-- `Request::Generate`. The locals start as `points = 0`, `hasNormal = false`,
`hasDistance = false`, and `et` uninitialised: `etInit` is the value `et` happens to
hold, which is used only when `GetRequestInfo` returns `false` (its return value is
ignored by the source). -/
def Generate (r : Request) (etInit : EntityType) (sk : Sketch) : Outcome :=
  match EntReqTable.GetRequestInfo r.type r.extraPoints with
  | some info => generateBody r info.ent info.pts info.hasNormal info.hasDistance sk
  | none => generateBody r etInit 0 false false sk

/-- The loop `for(int i = 0; i < MAX_POINTS_IN_ENTITY; i++)` of `IndexOfPoint`, from
index `i` with `n` iterations left. -/
def indexScan (h : hRequest) (he : hEntity) : Nat → Nat → Int
  | _, 0 => -1
  | i, n + 1 => if he.v = (h.entity (i + 1)).v then (i : Int) else indexScan h he (i + 1) n

/-- `Request::IndexOfPoint`; `-1` is "not found". -/
def IndexOfPoint (r : Request) (he : hEntity) : Int :=
  if r.type = RequestType.DATUM_POINT then
    (if he.v = (r.h.entity 0).v then 0 else -1)
  else
    indexScan r.h he 0 MAX_POINTS_IN_ENTITY

/-- `Request::HREQUEST_REFERENCE_XY`. -/
def HREQUEST_REFERENCE_XY : hRequest := ⟨1⟩

/-- `Request::HREQUEST_REFERENCE_YZ`. -/
def HREQUEST_REFERENCE_YZ : hRequest := ⟨2⟩

/-- `Request::HREQUEST_REFERENCE_ZX`. -/
def HREQUEST_REFERENCE_ZX : hRequest := ⟨3⟩

/-- The conversion `%03x` of `printf` on a 32-bit unsigned value: lower-case hexadecimal
digits, padded with zeros on the left up to three characters, never truncated. -/
def hex03 (v : Nat) : String :=
  let ds := Nat.toDigits 16 (v % 2 ^ 32)
  String.mk (List.replicate (3 - ds.length) '0' ++ ds)

/-- Modelled from the spec: `ssprintf` is a helper defined outside `request.cpp`, with
the format semantics of `printf`; this is the call `ssprintf("r%03x-%s", v, s)` of
`DescriptionString`, "the request handle rendered as a hexadecimal index and a label". -/
def ssprintf_r03x_s (v : Nat) (s : String) : String :=
  "r" ++ hex03 v ++ "-" ++ s

/-- `Request::DescriptionString`; `none` stands for the undefined call of `ssprintf`
with a `NULL` string, which `DescriptionForRequest` never returns for a table row. -/
def DescriptionString (r : Request) : Option String :=
  let s : Option String :=
    if r.h.v = HREQUEST_REFERENCE_XY.v then some "#XY"
    else if r.h.v = HREQUEST_REFERENCE_YZ.v then some "#YZ"
    else if r.h.v = HREQUEST_REFERENCE_ZX.v then some "#ZX"
    else EntReqTable.DescriptionForRequest r.type
  s.map (fun s => ssprintf_r03x_s r.h.v s)

end Request

/-! ## Observers used to state the properties -/

/-- A point entity: kind `POINT_IN_3D` or `POINT_IN_2D`. -/
def Entity.isPoint (e : Entity) : Bool :=
  e.type = EntityType.POINT_IN_3D || e.type = EntityType.POINT_IN_2D

/-- A normal entity: kind `NORMAL_IN_3D` or `NORMAL_IN_2D`. -/
def Entity.isNormal (e : Entity) : Bool :=
  e.type = EntityType.NORMAL_IN_3D || e.type = EntityType.NORMAL_IN_2D

/-- A distance entity: kind `DISTANCE`. -/
def Entity.isDistance (e : Entity) : Bool :=
  e.type = EntityType.DISTANCE

/-- An entity of the given kind. -/
def Entity.hasType (t : EntityType) (e : Entity) : Bool :=
  e.type = t

/-- The entities a call of `Generate` added: what the entity collection holds past
its length before the call. -/
def Request.addedEntities (r : Request) (etInit : EntityType) (sk : Sketch) : List Entity :=
  (r.Generate etInit sk).sketch.entity.drop sk.entity.length

/-- The parameters a call of `Generate` added: what the parameter collection holds
past its length before the call. -/
def Request.addedParams (r : Request) (etInit : EntityType) (sk : Sketch) : List Param :=
  (r.Generate etInit sk).sketch.param.drop sk.param.length

/-- The point entities a call of `Generate` added, in the order of their creation. -/
def Request.addedPoints (r : Request) (etInit : EntityType) (sk : Sketch) : List Entity :=
  (r.addedEntities etInit sk).filter Entity.isPoint

/-! ## Closed forms of the pieces of `Generate` (used by the proofs only) -/

namespace Request

/-- The point entity that iteration `i` of the point loop adds. -/
def pointEntity (r : Request) (et : EntityType) (i : Nat) : Entity :=
  { Entity.zeroed with
    h := r.h.entity (i + (if et ≠ EntityType.zero then 1 else 0))
    type := if r.workplane.v = Entity.FREE_IN_3D.v then EntityType.POINT_IN_3D
            else EntityType.POINT_IN_2D
    group := r.group
    style := r.style
    workplane := r.workplane
    param := if r.workplane.v = Entity.FREE_IN_3D.v then
               [r.h.param (16 + 3 * i + 0), r.h.param (16 + 3 * i + 1),
                r.h.param (16 + 3 * i + 2), ⟨0⟩]
             else [r.h.param (16 + 3 * i + 0), r.h.param (16 + 3 * i + 1), ⟨0⟩, ⟨0⟩] }

/-- The parameters that iteration `i` of the point loop adds. -/
def pointParams (r : Request) (i : Nat) : List Param :=
  if r.workplane.v = Entity.FREE_IN_3D.v then
    [⟨r.h.param (16 + 3 * i + 0)⟩, ⟨r.h.param (16 + 3 * i + 1)⟩, ⟨r.h.param (16 + 3 * i + 2)⟩]
  else [⟨r.h.param (16 + 3 * i + 0)⟩, ⟨r.h.param (16 + 3 * i + 1)⟩]

/-- The normal entity that the normal block adds when `e` is the primary entity. -/
def normalEntity (r : Request) (e : Entity) : Entity :=
  { Entity.zeroed with
    h := r.h.entity 32
    type := if r.workplane.v = Entity.FREE_IN_3D.v then EntityType.NORMAL_IN_3D
            else EntityType.NORMAL_IN_2D
    group := r.group
    style := r.style
    workplane := r.workplane
    point := Entity.zeroed.point.set 0 (e.pointAt 0)
    param := if r.workplane.v = Entity.FREE_IN_3D.v then
               [r.h.param (32 + 0), r.h.param (32 + 1), r.h.param (32 + 2), r.h.param (32 + 3)]
             else Entity.zeroed.param }

/-- The parameters that the normal block adds. -/
def normalParams (r : Request) : List Param :=
  if r.workplane.v = Entity.FREE_IN_3D.v then
    [⟨r.h.param (32 + 0)⟩, ⟨r.h.param (32 + 1)⟩, ⟨r.h.param (32 + 2)⟩, ⟨r.h.param (32 + 3)⟩]
  else []

/-- The distance entity that the distance block adds. -/
def distanceEntity (r : Request) : Entity :=
  { Entity.zeroed with
    h := r.h.entity 64
    type := EntityType.DISTANCE
    group := r.group
    style := r.style
    workplane := r.workplane
    param := [r.h.param 64, ⟨0⟩, ⟨0⟩, ⟨0⟩] }

/-- The primary entity as `Generate` initialises it, before the point loop. -/
def primaryInit (r : Request) (et : EntityType) : Entity :=
  { Entity.zeroed with
    h := r.h.entity 0
    type := et
    extraPoints := r.extraPoints
    group := r.group
    style := r.style
    workplane := r.workplane
    construction := r.construction
    str := r.str
    font := r.font }

/-- The primary entity after `n` iterations of the point loop. -/
def primaryAfter (r : Request) (et : EntityType) (n : Nat) (e : Entity) : Entity :=
  (List.range n).foldl (fun e i => e.setPoint i (pointEntity r et i).h) e

/-- The primary entity as `Generate` adds it: the point slots filled by the loop, then
the normal and the distance handle when the blocks ran. -/
def primaryFinal (r : Request) (et : EntityType) (points : Int) (hasNormal hasDistance : Bool) :
    Entity :=
  let e := primaryAfter r et points.toNat (primaryInit r et)
  let e := if hasNormal then { e with normal := r.h.entity 32 } else e
  if hasDistance then { e with distance := r.h.entity 64 } else e

/-- The entities `Generate` adds, in order, when no assertion fails. -/
def expectedEntities (r : Request) (et : EntityType) (points : Int)
    (hasNormal hasDistance : Bool) : List Entity :=
  (List.range points.toNat).map (pointEntity r et)
    ++ (if hasNormal then
          [normalEntity r (primaryAfter r et points.toNat (primaryInit r et))] else [])
    ++ (if hasDistance then [distanceEntity r] else [])
    ++ (if et ≠ EntityType.zero then [primaryFinal r et points hasNormal hasDistance] else [])

/-- The parameters `Generate` adds, in order, when no assertion fails. -/
def expectedParams (r : Request) (points : Int) (hasNormal hasDistance : Bool) : List Param :=
  (List.range points.toNat).flatMap (pointParams r)
    ++ (if hasNormal then normalParams r else [])
    ++ (if hasDistance then [⟨r.h.param 64⟩] else [])

/-- The point slots after `n` iterations of the point loop. -/
def slotsAfter (r : Request) (et : EntityType) (n : Nat) (l : List hEntity) : List hEntity :=
  (List.range n).foldl (fun l i => l.set i (pointEntity r et i).h) l

/-- The point count `Generate` works with for a request whose kind has row `te`. -/
def pointsOf (te : EntReqTable.TableEntry) (r : Request) : Int :=
  (EntReqTable.CopyEntityInfo te r.extraPoints).pts

end Request

/-! ## Sub-offsets of the added objects (used by the proofs only) -/

/-- The sub-offsets of the entities `Generate` adds, in order: `primary` tells whether
the entity kind is non-null, `n` is the point count. -/
def entityOffsets (primary : Bool) (n : Nat) (hasNormal hasDistance : Bool) : List Nat :=
  (List.range n).map (fun i => i + (if primary then 1 else 0))
    ++ (if hasNormal then [32] else [])
    ++ (if hasDistance then [64] else [])
    ++ (if primary then [0] else [])

/-- The sub-offsets of the parameters `Generate` adds, in order: `free` tells whether
the workplane is `FREE_IN_3D`, `n` is the point count. -/
def paramOffsets (free : Bool) (n : Nat) (hasNormal hasDistance : Bool) : List Nat :=
  (List.range n).flatMap
      (fun i => if free then [16 + 3 * i + 0, 16 + 3 * i + 1, 16 + 3 * i + 2]
                else [16 + 3 * i + 0, 16 + 3 * i + 1])
    ++ (if hasNormal then (if free then [32 + 0, 32 + 1, 32 + 2, 32 + 3] else []) else [])
    ++ (if hasDistance then [64] else [])

/-! ## Sample inputs -/

/-- A cubic request with two extra points, free in 3D. -/
def sampleCubic : Request :=
  { h := ⟨4⟩, type := .CUBIC, extraPoints := 2, group := ⟨2⟩, style := ⟨0⟩,
    workplane := Entity.FREE_IN_3D, construction := false, str := "", font := "" }

/-- A circle request free in 3D. -/
def sampleCircle3d : Request :=
  { h := ⟨5⟩, type := .CIRCLE, extraPoints := 0, group := ⟨2⟩, style := ⟨0⟩,
    workplane := Entity.FREE_IN_3D, construction := false, str := "", font := "" }

/-- A circle request lying in the workplane with entity handle `0x10000`. -/
def sampleCircle2d : Request :=
  { h := ⟨5⟩, type := .CIRCLE, extraPoints := 0, group := ⟨2⟩, style := ⟨0⟩,
    workplane := ⟨65536⟩, construction := false, str := "", font := "" }

/-- A line-segment request free in 3D. -/
def sampleLine : Request :=
  { h := ⟨6⟩, type := .LINE_SEGMENT, extraPoints := 0, group := ⟨2⟩, style := ⟨0⟩,
    workplane := Entity.FREE_IN_3D, construction := false, str := "", font := "" }

/-- The table row of the cubic kind. -/
def cubicRow : EntReqTable.TableEntry :=
  ⟨.CUBIC, .CUBIC, 4, true, false, false, some "cubic-bezier"⟩

/-- The table row of the circle kind. -/
def circleRow : EntReqTable.TableEntry :=
  ⟨.CIRCLE, .CIRCLE, 1, false, true, true, some "circle"⟩

/-- The table row of the line-segment kind. -/
def lineRow : EntReqTable.TableEntry :=
  ⟨.LINE_SEGMENT, .LINE_SEGMENT, 2, false, false, false, some "line-segment"⟩

/-- The empty pair of collections. -/
def emptySketch : Sketch := ⟨[], []⟩

/-- A request whose kind is an enumerator without a table row. -/
def sampleUnknown : Request :=
  { h := ⟨8⟩, type := .other 700, extraPoints := 0, group := ⟨2⟩, style := ⟨0⟩,
    workplane := Entity.FREE_IN_3D, construction := false, str := "", font := "" }

/-- A line-segment request that carries a text string and a font name. -/
def sampleLineWithText : Request :=
  { h := ⟨9⟩, type := .LINE_SEGMENT, extraPoints := 0, group := ⟨2⟩, style := ⟨0⟩,
    workplane := Entity.FREE_IN_3D, construction := true, str := "Abc", font := "a.ttf" }

/-- A workplane request that holds the reserved handle of the XY reference. -/
def sampleReferenceXY : Request :=
  { h := Request.HREQUEST_REFERENCE_XY, type := .WORKPLANE, extraPoints := 0, group := ⟨1⟩,
    style := ⟨0⟩, workplane := Entity.FREE_IN_3D, construction := false, str := "",
    font := "" }

/-- A request whose handle needs four hexadecimal digits. -/
def sampleWideHandle : Request :=
  { h := ⟨0x1234⟩, type := .LINE_SEGMENT, extraPoints := 0, group := ⟨2⟩, style := ⟨0⟩,
    workplane := Entity.FREE_IN_3D, construction := false, str := "", font := "" }

/-- A cubic request whose `extraPoints` is the largest `int`. -/
def sampleCubicIntMax : Request :=
  { h := ⟨4⟩, type := .CUBIC, extraPoints := 2147483647, group := ⟨2⟩, style := ⟨0⟩,
    workplane := Entity.FREE_IN_3D, construction := false, str := "", font := "" }

/-- A cubic request with a thousand extra points, free in 3D. -/
def sampleCubic1004 : Request :=
  { h := ⟨4⟩, type := .CUBIC, extraPoints := 1000, group := ⟨2⟩, style := ⟨0⟩,
    workplane := Entity.FREE_IN_3D, construction := false, str := "", font := "" }

/-- A cubic request with nine extra points, thirteen points in all, that carries a text. -/
def sampleCubic13WithText : Request :=
  { h := ⟨4⟩, type := .CUBIC, extraPoints := 9, group := ⟨2⟩, style := ⟨0⟩,
    workplane := Entity.FREE_IN_3D, construction := false, str := "Abc", font := "a.ttf" }

/-- A circle request with a negative `extraPoints`. -/
def sampleCircleNegative : Request :=
  { h := ⟨5⟩, type := .CIRCLE, extraPoints := -5, group := ⟨2⟩, style := ⟨0⟩,
    workplane := Entity.FREE_IN_3D, construction := false, str := "", font := "" }

/-! ## Lemmas on the point loop -/

namespace Request

theorem pointIter_eq (r : Request) (et : EntityType) (st : GenState) (i : Nat) :
    pointIter r et st i =
      { sk := ⟨st.sk.entity ++ [pointEntity r et i], st.sk.param ++ pointParams r i⟩,
        e := st.e.setPoint i (pointEntity r et i).h } := by
  unfold pointIter pointEntity pointParams
  by_cases hw : r.workplane.v = Entity.FREE_IN_3D.v
  · simp [hw, AddParam, Sketch.addEntity, Entity.setParam, Entity.setPoint, Entity.zeroed]
  · simp [hw, AddParam, Sketch.addEntity, Entity.setParam, Entity.setPoint, Entity.zeroed]

theorem foldl_pointIter (r : Request) (et : EntityType) (n : Nat) (st : GenState) :
    (List.range n).foldl (pointIter r et) st =
      { sk := ⟨st.sk.entity ++ (List.range n).map (pointEntity r et),
               st.sk.param ++ (List.range n).flatMap (pointParams r)⟩,
        e := primaryAfter r et n st.e } := by
  induction n with
  | zero => simp [primaryAfter]
  | succ n ih =>
    simp only [List.range_succ, List.foldl_append, List.foldl_cons, List.foldl_nil, ih,
      pointIter_eq, primaryAfter, List.map_append, List.flatMap_append, List.map_cons,
      List.map_nil, List.flatMap_cons, List.flatMap_nil, List.append_assoc, List.append_nil]

theorem generateBody_eq (r : Request) (et : EntityType) (points : Int)
    (hasNormal hasDistance : Bool) (sk : Sketch) (hp : hasNormal = true → 1 ≤ points)
    (hmax : points ≤ (MAX_POINTS_IN_ENTITY : Int)) :
    generateBody r et points hasNormal hasDistance sk =
      .done ⟨sk.entity ++ expectedEntities r et points hasNormal hasDistance,
             sk.param ++ expectedParams r points hasNormal hasDistance⟩ := by
  simp only [generateBody, pointLoop, foldl_pointIter, if_neg (not_lt.2 hmax)]
  cases hasNormal <;> cases hasDistance <;> by_cases het : et = EntityType.zero <;>
    by_cases hw : r.workplane.v = Entity.FREE_IN_3D.v <;>
    simp_all [normalBlock, distanceBlock, expectedEntities, expectedParams, primaryFinal,
      normalEntity, normalParams, distanceEntity, primaryInit, AddParam, Sketch.addEntity,
      Entity.setParam, Entity.setPoint, Entity.zeroed]

end Request

/-! ## Lemmas on the table -/

namespace EntReqTable

theorem rows_eq : rows =
    [ ⟨.WORKPLANE,      .WORKPLANE,      1, false, true,  false, some "workplane"⟩,
      ⟨.DATUM_POINT,    .zero,           1, false, false, false, some "datum-point"⟩,
      ⟨.LINE_SEGMENT,   .LINE_SEGMENT,   2, false, false, false, some "line-segment"⟩,
      ⟨.CUBIC,          .CUBIC,          4, true,  false, false, some "cubic-bezier"⟩,
      ⟨.CUBIC_PERIODIC, .CUBIC_PERIODIC, 3, true,  false, false, some "periodic-cubic"⟩,
      ⟨.CIRCLE,         .CIRCLE,         1, false, true,  true,  some "circle"⟩,
      ⟨.ARC_OF_CIRCLE,  .ARC_OF_CIRCLE,  3, false, true,  false, some "arc-of-circle"⟩,
      ⟨.TTF_TEXT,       .TTF_TEXT,       2, false, true,  false, some "ttf-text"⟩ ] := by
  simp [rows, rowsOf, Table]

theorem findRequest_of_row (te : TableEntry) (hte : te ∈ rows) :
    findRequest te.reqType Table = some te := by
  rw [rows_eq] at hte
  simp only [List.mem_cons, List.mem_singleton, List.not_mem_nil, or_false] at hte
  rcases hte with h | h | h | h | h | h | h | h <;> subst h <;> simp [findRequest, Table]

theorem getRequestInfo_of_row (te : TableEntry) (hte : te ∈ rows) (extraPoints : Int) :
    GetRequestInfo te.reqType extraPoints = some (CopyEntityInfo te extraPoints) := by
  simp [GetRequestInfo, findRequest_of_row te hte]

theorem row_facts (te : TableEntry) (hte : te ∈ rows) :
    (te.hasNormal = true → te.useExtraPoints = false ∧ 1 ≤ te.points ∧ te.points ≤ 3)
      ∧ (te.hasDistance = true → te.useExtraPoints = false ∧ te.points = 1)
      ∧ 1 ≤ te.points ∧ te.points ≤ 4
      ∧ te.entType ≠ EntityType.POINT_IN_3D ∧ te.entType ≠ EntityType.POINT_IN_2D
      ∧ te.entType ≠ EntityType.NORMAL_IN_3D ∧ te.entType ≠ EntityType.NORMAL_IN_2D
      ∧ te.entType ≠ EntityType.DISTANCE := by
  rw [rows_eq] at hte
  simp only [List.mem_cons, List.mem_singleton, List.not_mem_nil, or_false] at hte
  rcases hte with h | h | h | h | h | h | h | h <;> subst h <;> simp

end EntReqTable

namespace Request

theorem wrapInt32_of_range (x : Int) (h1 : -2147483648 ≤ x) (h2 : x < 2147483648) :
    EntReqTable.wrapInt32 x = x := by
  unfold EntReqTable.wrapInt32
  omega

theorem pointsOf_eq (te : EntReqTable.TableEntry) (r : Request) :
    pointsOf te r = (if te.useExtraPoints then EntReqTable.wrapInt32 (te.points + r.extraPoints)
                     else te.points) := by
  unfold pointsOf EntReqTable.CopyEntityInfo
  by_cases h : te.useExtraPoints = true <;> simp [h]

theorem pointsOf_exact (te : EntReqTable.TableEntry) (hte : te ∈ EntReqTable.rows) (r : Request)
    (he : 0 ≤ r.extraPoints)
    (hsum : te.points + (if te.useExtraPoints then r.extraPoints else 0)
      ≤ (MAX_POINTS_IN_ENTITY : Int)) :
    pointsOf te r = te.points + (if te.useExtraPoints then r.extraPoints else 0) := by
  have hM : (MAX_POINTS_IN_ENTITY : Int) = 12 := rfl
  obtain ⟨_, _, hp1, _⟩ := EntReqTable.row_facts te hte
  rw [pointsOf_eq]
  by_cases h : te.useExtraPoints = true
  · simp only [h, if_true] at hsum ⊢
    exact wrapInt32_of_range _ (by omega) (by omega)
  · simp [h]

theorem Generate_of_row (te : EntReqTable.TableEntry) (hte : te ∈ EntReqTable.rows)
    (r : Request) (hr : r.type = te.reqType) (etInit : EntityType) (sk : Sketch)
    (hmax : pointsOf te r ≤ (MAX_POINTS_IN_ENTITY : Int)) :
    Generate r etInit sk =
      .done ⟨sk.entity ++ expectedEntities r te.entType (pointsOf te r) te.hasNormal te.hasDistance,
             sk.param ++ expectedParams r (pointsOf te r) te.hasNormal te.hasDistance⟩ := by
  unfold Generate
  rw [hr, EntReqTable.getRequestInfo_of_row te hte]
  have hf := (EntReqTable.row_facts te hte).1
  exact generateBody_eq r te.entType (pointsOf te r) te.hasNormal te.hasDistance sk
    (by intro hn; rw [pointsOf_eq]; obtain ⟨h1, h2, _⟩ := hf hn; simp [h1, h2]) hmax

theorem addedEntities_of_row (te : EntReqTable.TableEntry) (hte : te ∈ EntReqTable.rows)
    (r : Request) (hr : r.type = te.reqType) (etInit : EntityType) (sk : Sketch)
    (hmax : pointsOf te r ≤ (MAX_POINTS_IN_ENTITY : Int)) :
    r.addedEntities etInit sk =
      expectedEntities r te.entType (pointsOf te r) te.hasNormal te.hasDistance := by
  simp [addedEntities, Generate_of_row te hte r hr etInit sk hmax, Outcome.sketch]

theorem addedParams_of_row (te : EntReqTable.TableEntry) (hte : te ∈ EntReqTable.rows)
    (r : Request) (hr : r.type = te.reqType) (etInit : EntityType) (sk : Sketch)
    (hmax : pointsOf te r ≤ (MAX_POINTS_IN_ENTITY : Int)) :
    r.addedParams etInit sk = expectedParams r (pointsOf te r) te.hasNormal te.hasDistance := by
  simp [addedParams, Generate_of_row te hte r hr etInit sk hmax, Outcome.sketch]

theorem primaryAfter_eq (r : Request) (et : EntityType) (n : Nat) (e : Entity) :
    primaryAfter r et n e = { e with point := slotsAfter r et n e.point } := by
  induction n with
  | zero => simp [primaryAfter, slotsAfter]
  | succ n ih =>
    have hs : primaryAfter r et (n + 1) e
        = (primaryAfter r et n e).setPoint n (pointEntity r et n).h := by
      simp only [primaryAfter, List.range_succ, List.foldl_append, List.foldl_cons,
        List.foldl_nil]
    have hl : slotsAfter r et (n + 1) e.point
        = (slotsAfter r et n e.point).set n (pointEntity r et n).h := by
      simp only [slotsAfter, List.range_succ, List.foldl_append, List.foldl_cons,
        List.foldl_nil]
    rw [hs, hl, ih]
    rfl

theorem slotsAfter_length (r : Request) (et : EntityType) (n : Nat) (l : List hEntity) :
    (slotsAfter r et n l).length = l.length := by
  induction n with
  | zero => simp [slotsAfter]
  | succ n ih =>
    unfold slotsAfter at *
    simp only [List.range_succ, List.foldl_append, List.foldl_cons, List.foldl_nil,
      List.length_set, ih]

theorem slotsAfter_getD (r : Request) (et : EntityType) (n : Nat) (l : List hEntity)
    (i : Nat) (hi : i < n) (hl : i < l.length) :
    (slotsAfter r et n l).getD i ⟨0⟩ = (pointEntity r et i).h := by
  induction n with
  | zero => omega
  | succ n ih =>
    have hlen := slotsAfter_length r et n l
    have hstep : slotsAfter r et (n + 1) l
        = (slotsAfter r et n l).set n (pointEntity r et n).h := by
      unfold slotsAfter
      simp only [List.range_succ, List.foldl_append, List.foldl_cons, List.foldl_nil]
    rw [hstep]
    by_cases hin : i = n
    · subst hin
      simp [List.getD_eq_getElem?_getD, List.getElem?_set, hlen, hl]
    · have hlt : i < n := by omega
      have := ih hlt
      simp only [List.getD_eq_getElem?_getD] at this ⊢
      rw [List.getElem?_set_ne (Ne.symm hin)]
      exact this

theorem pointEntity_isPoint (r : Request) (et : EntityType) (i : Nat) :
    (pointEntity r et i).isPoint = true := by
  unfold pointEntity Entity.isPoint
  by_cases hw : r.workplane.v = Entity.FREE_IN_3D.v <;> simp [hw]

theorem pointEntity_type (r : Request) (et : EntityType) (i : Nat) :
    (pointEntity r et i).type =
      if r.workplane.v = Entity.FREE_IN_3D.v then EntityType.POINT_IN_3D
      else EntityType.POINT_IN_2D := rfl

theorem normalEntity_type (r : Request) (e : Entity) :
    (normalEntity r e).type =
      if r.workplane.v = Entity.FREE_IN_3D.v then EntityType.NORMAL_IN_3D
      else EntityType.NORMAL_IN_2D := rfl

theorem distanceEntity_type (r : Request) : (distanceEntity r).type = EntityType.DISTANCE := rfl

theorem primaryFinal_type (r : Request) (et : EntityType) (points : Int) (hn hd : Bool) :
    (primaryFinal r et points hn hd).type = et := by
  unfold primaryFinal
  rw [primaryAfter_eq]
  cases hn <;> cases hd <;> simp [primaryInit]

theorem countP_points (p : Entity → Bool) (r : Request) (et : EntityType) (n : Nat)
    (b : Bool) (h : ∀ i, p (pointEntity r et i) = b) :
    ((List.range n).map (pointEntity r et)).countP p = if b then n else 0 := by
  induction n with
  | zero => simp
  | succ n ih =>
    rw [List.range_succ, List.map_append, List.countP_append, ih]
    cases b <;> simp [h]

theorem normalEntity_kinds (r : Request) (e : Entity) :
    (normalEntity r e).isPoint = false ∧ (normalEntity r e).isNormal = true
      ∧ (normalEntity r e).isDistance = false := by
  unfold Entity.isPoint Entity.isNormal Entity.isDistance
  rw [normalEntity_type]
  by_cases hw : r.workplane.v = Entity.FREE_IN_3D.v <;> simp [hw]

theorem pointEntity_kinds (r : Request) (et : EntityType) (i : Nat) :
    (pointEntity r et i).isNormal = false ∧ (pointEntity r et i).isDistance = false := by
  unfold Entity.isNormal Entity.isDistance
  rw [pointEntity_type]
  by_cases hw : r.workplane.v = Entity.FREE_IN_3D.v <;> simp [hw]

theorem distanceEntity_kinds (r : Request) :
    (distanceEntity r).isPoint = false ∧ (distanceEntity r).isNormal = false
      ∧ (distanceEntity r).isDistance = true := by
  unfold Entity.isPoint Entity.isNormal Entity.isDistance
  rw [distanceEntity_type]
  simp

theorem primaryFinal_kinds (te : EntReqTable.TableEntry) (hte : te ∈ EntReqTable.rows)
    (r : Request) (points : Int) (hn hd : Bool) :
    (primaryFinal r te.entType points hn hd).isPoint = false
      ∧ (primaryFinal r te.entType points hn hd).isNormal = false
      ∧ (primaryFinal r te.entType points hn hd).isDistance = false := by
  obtain ⟨_, _, _, _, h1, h2, h3, h4, h5⟩ := EntReqTable.row_facts te hte
  unfold Entity.isPoint Entity.isNormal Entity.isDistance
  rw [primaryFinal_type]
  simp [h1, h2, h3, h4, h5]

theorem addedPoints_of_row (te : EntReqTable.TableEntry) (hte : te ∈ EntReqTable.rows)
    (r : Request) (hr : r.type = te.reqType) (etInit : EntityType) (sk : Sketch)
    (hmax : pointsOf te r ≤ (MAX_POINTS_IN_ENTITY : Int)) :
    r.addedPoints etInit sk = (List.range (pointsOf te r).toNat).map (pointEntity r te.entType) := by
  unfold addedPoints
  rw [addedEntities_of_row te hte r hr etInit sk hmax]
  unfold expectedEntities
  have hmap : ((List.range (pointsOf te r).toNat).map (pointEntity r te.entType)).filter
      Entity.isPoint = (List.range (pointsOf te r).toNat).map (pointEntity r te.entType) := by
    rw [List.filter_eq_self]
    intro a ha
    obtain ⟨i, _, rfl⟩ := List.mem_map.1 ha
    exact pointEntity_isPoint r te.entType i
  have hn := fun e => (normalEntity_kinds r e).1
  have hd := (distanceEntity_kinds r).1
  have hp := fun a b => (primaryFinal_kinds te hte r (pointsOf te r) a b).1
  simp only [List.filter_append, hmap]
  cases te.hasNormal <;> cases te.hasDistance <;>
    by_cases het : te.entType = EntityType.zero <;> simp [het, hn, hd, hp]

end Request

/-! ## Lemmas on handles and sub-offsets -/

theorem handle_value (v i : Nat) (hi : i < 65536) :
    ((v <<< 16) % 2 ^ 32) ||| (i % 2 ^ 32) = 65536 * (v % 65536) + i := by
  have h1 : i % 2 ^ 32 = i := Nat.mod_eq_of_lt (by omega)
  have h2 : (v <<< 16) % 2 ^ 32 = 2 ^ 16 * (v % 65536) := by
    rw [Nat.shiftLeft_eq]
    have : (2 : Nat) ^ 32 = 2 ^ 16 * 65536 := by norm_num
    rw [this, Nat.mul_comm v, Nat.mul_mod_mul_left]
  rw [h1, h2, ← Nat.mul_add_lt_is_or (by norm_num; exact hi)]

theorem hRequest.entity_v (h : hRequest) (i : Nat) (hi : i < 65536) :
    (h.entity i).v = 65536 * (h.v % 65536) + i := handle_value h.v i hi

theorem hRequest.param_v (h : hRequest) (i : Nat) (hi : i < 65536) :
    (h.param i).v = 65536 * (h.v % 65536) + i := handle_value h.v i hi

theorem hRequest.entity_inj (h : hRequest) (a b : Nat) (ha : a < 65536) (hb : b < 65536)
    (hab : h.entity a = h.entity b) : a = b := by
  have := congrArg hEntity.v hab
  rw [h.entity_v a ha, h.entity_v b hb] at this
  omega

theorem hRequest.param_inj (h : hRequest) (a b : Nat) (ha : a < 65536) (hb : b < 65536)
    (hab : h.param a = h.param b) : a = b := by
  have := congrArg hParam.v hab
  rw [h.param_v a ha, h.param_v b hb] at this
  omega

theorem entityOffsets_ok (primary : Bool) (n : Nat) (hasNormal hasDistance : Bool)
    (hn : n ≤ 12) :
    (entityOffsets primary n hasNormal hasDistance).Nodup
      ∧ ∀ x ∈ entityOffsets primary n hasNormal hasDistance, x < 65536 := by
  interval_cases n <;> cases primary <;> cases hasNormal <;> cases hasDistance <;> decide

theorem paramOffsets_ok (free : Bool) (n : Nat) (hasNormal hasDistance : Bool)
    (hn : n ≤ 12) (h3 : hasNormal = true → n ≤ 3) :
    (paramOffsets free n hasNormal hasDistance).Nodup
      ∧ ∀ x ∈ paramOffsets free n hasNormal hasDistance, x < 65536 := by
  cases hasNormal
  · interval_cases n <;> cases free <;> cases hasDistance <;> decide
  · have h := h3 rfl
    interval_cases n <;> cases free <;> cases hasDistance <;> decide

namespace Request

theorem expectedEntities_handles (r : Request) (et : EntityType) (points : Int)
    (hasNormal hasDistance : Bool) :
    (expectedEntities r et points hasNormal hasDistance).map (fun e => e.h) =
      (entityOffsets (decide (et ≠ EntityType.zero)) points.toNat hasNormal hasDistance).map
        r.h.entity := by
  have hprim : (primaryFinal r et points hasNormal hasDistance).h = r.h.entity 0 := by
    unfold primaryFinal
    rw [primaryAfter_eq]
    cases hasNormal <;> cases hasDistance <;> simp [primaryInit]
  unfold expectedEntities entityOffsets
  by_cases hz : et ≠ EntityType.zero <;> cases hasNormal <;> cases hasDistance <;>
    simp [hz, hprim, pointEntity, normalEntity, distanceEntity, Function.comp_def]

theorem expectedParams_handles (r : Request) (points : Int) (hasNormal hasDistance : Bool) :
    (expectedParams r points hasNormal hasDistance).map (fun pa => pa.h) =
      (paramOffsets (decide (r.workplane.v = Entity.FREE_IN_3D.v)) points.toNat hasNormal
        hasDistance).map r.h.param := by
  unfold expectedParams paramOffsets
  by_cases hw : r.workplane.v = Entity.FREE_IN_3D.v <;> cases hasNormal <;>
    cases hasDistance <;>
    simp [hw, pointParams, normalParams, List.map_flatMap, Function.comp_def]

end Request

/-! ## Lemmas on `IndexOfPoint` -/

namespace Request

theorem indexScan_hit (h : hRequest) (i : Nat) (hi : i + 1 < 65536) :
    ∀ n j, j ≤ i → i < j + n → indexScan h (h.entity (i + 1)) j n = (i : Int) := by
  intro n
  induction n with
  | zero => intro j h1 h2; omega
  | succ n ih =>
    intro j h1 h2
    unfold indexScan
    by_cases hji : j = i
    · subst hji
      simp
    · have hne : ¬ (h.entity (i + 1)).v = (h.entity (j + 1)).v := by
        rw [h.entity_v (i + 1) hi, h.entity_v (j + 1) (by omega)]
        omega
      rw [if_neg hne]
      exact ih (j + 1) (by omega) (by omega)

theorem indexScan_miss (h : hRequest) (he : hEntity) :
    ∀ n j, (indexScan h he j n = -1 ↔ ∀ k, j ≤ k → k < j + n → he ≠ h.entity (k + 1)) := by
  intro n
  induction n with
  | zero =>
    intro j
    simp only [indexScan, true_iff]
    intro k h1 h2
    omega
  | succ n ih =>
    intro j
    unfold indexScan
    by_cases hv : he.v = (h.entity (j + 1)).v
    · rw [if_pos hv]
      constructor
      · intro hneg
        omega
      · intro hall
        exact absurd (by cases he; cases hj : h.entity (j + 1); simp_all) (hall j le_rfl (by omega))
    · rw [if_neg hv, ih (j + 1)]
      constructor
      · intro hall k h1 h2
        by_cases hkj : k = j
        · subst hkj
          intro heq
          exact hv (by rw [heq])
        · exact hall k (by omega) (by omega)
      · intro hall k h1 h2
        exact hall k (by omega) (by omega)

end Request

namespace EntReqTable

theorem row_datum (te : TableEntry) (hte : te ∈ rows) :
    (te.entType = EntityType.zero ↔ te.reqType = RequestType.DATUM_POINT)
      ∧ (te.reqType = RequestType.DATUM_POINT → te.points = 1 ∧ te.useExtraPoints = false) := by
  rw [rows_eq] at hte
  simp only [List.mem_cons, List.mem_singleton, List.not_mem_nil, or_false] at hte
  rcases hte with h | h | h | h | h | h | h | h <;> subst h <;> simp

end EntReqTable

/-! ## Lemmas on the cross-references -/

namespace Request

theorem primaryFinal_fields (r : Request) (et : EntityType) (points : Int)
    (hasNormal hasDistance : Bool) :
    (primaryFinal r et points hasNormal hasDistance).h = r.h.entity 0
      ∧ (primaryFinal r et points hasNormal hasDistance).param = Entity.zeroed.param
      ∧ (primaryFinal r et points hasNormal hasDistance).point
          = slotsAfter r et points.toNat Entity.zeroed.point
      ∧ (hasNormal = true →
          (primaryFinal r et points hasNormal hasDistance).normal = r.h.entity 32)
      ∧ (hasDistance = true →
          (primaryFinal r et points hasNormal hasDistance).distance = r.h.entity 64) := by
  unfold primaryFinal
  rw [primaryAfter_eq]
  cases hasNormal <;> cases hasDistance <;> simp [primaryInit]

theorem zeroed_paramAt (k : Nat) : Entity.zeroed.param.getD k ⟨0⟩ = ⟨0⟩ := by
  rcases k with _ | _ | _ | _ | k <;> simp [Entity.zeroed, List.replicate]

theorem pointAt_after (r : Request) (et : EntityType) (n i : Nat) (hi : i < n)
    (hn : n ≤ MAX_POINTS_IN_ENTITY) :
    (slotsAfter r et n Entity.zeroed.point).getD i ⟨0⟩ = (pointEntity r et i).h := by
  apply slotsAfter_getD r et n _ i hi
  simp only [Entity.zeroed, List.length_replicate]
  omega

theorem normalEntity_fields (r : Request) (e : Entity) :
    (normalEntity r e).h = r.h.entity 32 ∧ (normalEntity r e).pointAt 0 = e.pointAt 0
      ∧ (r.workplane.v = Entity.FREE_IN_3D.v →
          (normalEntity r e).param
            = [r.h.param (32 + 0), r.h.param (32 + 1), r.h.param (32 + 2), r.h.param (32 + 3)])
      ∧ (r.workplane.v ≠ Entity.FREE_IN_3D.v → (normalEntity r e).param = Entity.zeroed.param) := by
  refine ⟨rfl, ?_, ?_, ?_⟩
  · simp [normalEntity, Entity.pointAt, Entity.zeroed, MAX_POINTS_IN_ENTITY, List.replicate]
  · intro hw
    simp [normalEntity, hw]
  · intro hw
    simp [normalEntity, hw]

theorem slot_resolvable (l : List hParam) (ps : List Param) (k : Nat)
    (h : ∀ x ∈ l, x = ⟨0⟩ ∨ (⟨x⟩ : Param) ∈ ps) :
    l.getD k ⟨0⟩ = ⟨0⟩ ∨ (⟨l.getD k ⟨0⟩⟩ : Param) ∈ ps := by
  by_cases hk : k < l.length
  · have : l.getD k ⟨0⟩ = l[k] := by simp [List.getD_eq_getElem?_getD, hk]
    rw [this]
    exact h _ (List.getElem_mem hk)
  · left
    simp [List.getD_eq_getElem?_getD, List.getElem?_eq_none (Nat.le_of_not_lt hk)]

end Request

/-! ## Lemmas on failure and on the frame of `Generate` -/

namespace Request

theorem generateBody_fatal (r : Request) (et : EntityType) (points : Int) (hasDistance : Bool)
    (sk : Sketch) (h0 : points ≤ 0) :
    generateBody r et points true hasDistance sk =
      .fatal "Positioning a normal requires a point" ⟨sk.entity, sk.param ++ normalParams r⟩ := by
  have hz : points.toNat = 0 := by omega
  have hlt : ¬ (points ≥ 1) := by omega
  have hM : ¬ ((MAX_POINTS_IN_ENTITY : Int) < points) := by
    have : (MAX_POINTS_IN_ENTITY : Int) = 12 := rfl
    omega
  simp only [generateBody, pointLoop, foldl_pointIter, hz, if_neg hM]
  by_cases hw : r.workplane.v = Entity.FREE_IN_3D.v <;>
    simp [normalBlock, normalParams, AddParam, hw, hlt]

theorem generateBody_undefined (r : Request) (et : EntityType) (points : Int)
    (hasNormal hasDistance : Bool) (sk : Sketch)
    (hmax : (MAX_POINTS_IN_ENTITY : Int) < points) :
    generateBody r et points hasNormal hasDistance sk =
      .undefined ⟨sk.entity ++ (List.range (MAX_POINTS_IN_ENTITY + 1)).map (pointEntity r et),
        sk.param ++ (List.range (MAX_POINTS_IN_ENTITY + 1)).flatMap (pointParams r)⟩ := by
  have h : ((MAX_POINTS_IN_ENTITY + 1 : Nat) : Int).toNat = MAX_POINTS_IN_ENTITY + 1 := rfl
  simp only [generateBody, pointLoop, foldl_pointIter, if_pos hmax]
  rw [show ((MAX_POINTS_IN_ENTITY : Int) + 1).toNat = MAX_POINTS_IN_ENTITY + 1 from rfl]

theorem generateBody_frame (r : Request) (et : EntityType) (points : Int)
    (hasNormal hasDistance : Bool) (sk : Sketch) :
    (generateBody r et points hasNormal hasDistance sk).sketch.entity
        = sk.entity ++ (generateBody r et points hasNormal hasDistance ⟨[], []⟩).sketch.entity
      ∧ (generateBody r et points hasNormal hasDistance sk).sketch.param
        = sk.param ++ (generateBody r et points hasNormal hasDistance ⟨[], []⟩).sketch.param
      ∧ ((∃ sk2, generateBody r et points hasNormal hasDistance sk = .done sk2)
          ↔ ((hasNormal = true → 1 ≤ points) ∧ points ≤ (MAX_POINTS_IN_ENTITY : Int)))
      ∧ ((∃ sk2, generateBody r et points hasNormal hasDistance sk = .undefined sk2)
          ↔ (MAX_POINTS_IN_ENTITY : Int) < points) := by
  have hM : (MAX_POINTS_IN_ENTITY : Int) = 12 := rfl
  by_cases hmax : (MAX_POINTS_IN_ENTITY : Int) < points
  · rw [generateBody_undefined r et points hasNormal hasDistance sk hmax,
      generateBody_undefined r et points hasNormal hasDistance ⟨[], []⟩ hmax]
    refine ⟨by simp [Outcome.sketch], by simp [Outcome.sketch], ?_, ?_⟩
    · constructor
      · intro ⟨sk2, h⟩
        exact absurd h (by simp)
      · intro ⟨_, h⟩
        omega
    · exact ⟨fun _ => hmax, fun _ => ⟨_, rfl⟩⟩
  · have hle : points ≤ (MAX_POINTS_IN_ENTITY : Int) := not_lt.1 hmax
    by_cases hp : hasNormal = true → 1 ≤ points
    · rw [generateBody_eq r et points hasNormal hasDistance sk hp hle,
        generateBody_eq r et points hasNormal hasDistance ⟨[], []⟩ hp hle]
      refine ⟨by simp [Outcome.sketch], by simp [Outcome.sketch], ?_, ?_⟩
      · exact ⟨fun _ => ⟨hp, hle⟩, fun _ => ⟨_, rfl⟩⟩
      · constructor
        · intro ⟨sk2, h⟩
          exact absurd h (by simp)
        · intro h
          exact absurd h hmax
    · have hn : hasNormal = true := by
        by_contra h
        exact hp (fun h2 => absurd h2 h)
      have h0 : points ≤ 0 := by
        by_contra h
        exact hp (fun _ => by omega)
      subst hn
      rw [generateBody_fatal r et points hasDistance sk h0,
        generateBody_fatal r et points hasDistance ⟨[], []⟩ h0]
      refine ⟨by simp [Outcome.sketch], by simp [Outcome.sketch], ?_, ?_⟩
      · constructor
        · intro ⟨sk2, h⟩
          exact absurd h (by simp)
        · intro ⟨h, _⟩
          exact absurd h hp
      · constructor
        · intro ⟨sk2, h⟩
          exact absurd h (by simp)
        · intro h
          exact absurd h hmax

theorem Generate_of_unknown (r : Request)
    (hno : EntReqTable.GetRequestInfo r.type r.extraPoints = none) (etInit : EntityType)
    (sk : Sketch) :
    Generate r etInit sk =
      .done ⟨sk.entity ++ (if etInit ≠ EntityType.zero then [primaryFinal r etInit 0 false false]
                            else []), sk.param⟩ := by
  unfold Generate
  rw [hno]
  simp only []
  rw [generateBody_eq r etInit 0 false false sk (by simp) (by decide)]
  simp [expectedEntities, expectedParams]

end Request

/-! ## Lemmas on the lookups -/

namespace EntReqTable

theorem findRequest_some (req : RequestType) (l : List TableEntry) (te : TableEntry)
    (h : findRequest req l = some te) : te ∈ rowsOf l ∧ te.reqType = req := by
  induction l with
  | nil => simp [findRequest] at h
  | cons a rest ih =>
    unfold findRequest at h
    unfold rowsOf
    by_cases hz : a.reqType = RequestType.zero
    · simp [hz] at h
    · rw [if_neg hz] at h
      rw [if_neg hz]
      by_cases hr : req = a.reqType
      · rw [if_pos hr] at h
        cases h
        exact ⟨List.mem_cons_self _ _, hr.symm⟩
      · rw [if_neg hr] at h
        exact ⟨List.mem_cons_of_mem _ (ih h).1, (ih h).2⟩

theorem findEntity_some (ent : EntityType) (l : List TableEntry) (te : TableEntry)
    (h : findEntity ent l = some te) : te ∈ rowsOf l ∧ te.entType = ent := by
  induction l with
  | nil => simp [findEntity] at h
  | cons a rest ih =>
    unfold findEntity at h
    unfold rowsOf
    by_cases hz : a.reqType = RequestType.zero
    · simp [hz] at h
    · rw [if_neg hz] at h
      rw [if_neg hz]
      by_cases hr : ent = a.entType
      · rw [if_pos hr] at h
        cases h
        exact ⟨List.mem_cons_self _ _, hr.symm⟩
      · rw [if_neg hr] at h
        exact ⟨List.mem_cons_of_mem _ (ih h).1, (ih h).2⟩

theorem findEntity_of_row (te : TableEntry) (hte : te ∈ rows) :
    findEntity te.entType Table = some te := by
  rw [rows_eq] at hte
  simp only [List.mem_cons, List.mem_singleton, List.not_mem_nil, or_false] at hte
  rcases hte with h | h | h | h | h | h | h | h <;> subst h <;> simp [findEntity, Table]

theorem row_description (te : TableEntry) (hte : te ∈ rows) :
    ∃ d, te.description = some d := by
  rw [rows_eq] at hte
  simp only [List.mem_cons, List.mem_singleton, List.not_mem_nil, or_false] at hte
  rcases hte with h | h | h | h | h | h | h | h <;> subst h <;> exact ⟨_, rfl⟩

end EntReqTable

/-! ## Lemmas on the description and on the copied fields -/

namespace EntReqTable

theorem descriptionForRequest_of_row (te : TableEntry) (hte : te ∈ rows) :
    DescriptionForRequest te.reqType = te.description := by
  simp [DescriptionForRequest, findRequest_of_row te hte]

theorem descriptionForRequest_unknown (req : RequestType)
    (h : ∀ te ∈ rows, te.reqType ≠ req) : DescriptionForRequest req = some "???" := by
  unfold DescriptionForRequest
  cases hf : findRequest req Table with
  | none => rfl
  | some te =>
    obtain ⟨h1, h2⟩ := findRequest_some req _ te hf
    exact absurd h2 (h te h1)

theorem descriptionForRequest_some (req : RequestType) :
    ∃ d, DescriptionForRequest req = some d := by
  by_cases h : ∀ te ∈ rows, te.reqType ≠ req
  · exact ⟨_, descriptionForRequest_unknown req h⟩
  · push_neg at h
    obtain ⟨te, hte, hk⟩ := h
    obtain ⟨d, hd⟩ := row_description te hte
    exact ⟨d, by rw [← hk, descriptionForRequest_of_row te hte, hd]⟩

end EntReqTable

namespace Request

theorem hex03_length (v : Nat) : 3 ≤ (hex03 v).length := by
  unfold hex03
  simp only [String.length_mk, List.length_append, List.length_replicate]
  omega

theorem primaryFinal_copied (r : Request) (et : EntityType) (points : Int)
    (hasNormal hasDistance : Bool) :
    (primaryFinal r et points hasNormal hasDistance).extraPoints = r.extraPoints
      ∧ (primaryFinal r et points hasNormal hasDistance).group = r.group
      ∧ (primaryFinal r et points hasNormal hasDistance).style = r.style
      ∧ (primaryFinal r et points hasNormal hasDistance).workplane = r.workplane
      ∧ (primaryFinal r et points hasNormal hasDistance).construction = r.construction
      ∧ (primaryFinal r et points hasNormal hasDistance).str = r.str
      ∧ (primaryFinal r et points hasNormal hasDistance).font = r.font := by
  unfold primaryFinal
  rw [primaryAfter_eq]
  cases hasNormal <;> cases hasDistance <;> simp [primaryInit]

end Request

/-! ## Lemmas on the order of insertion and on the parameter count -/

namespace Request

end Request

/-! ## Lemmas on the sample inputs -/

theorem cubicRow_mem : cubicRow ∈ EntReqTable.rows := by
  simp [EntReqTable.rows_eq, cubicRow]

theorem circleRow_mem : circleRow ∈ EntReqTable.rows := by
  simp [EntReqTable.rows_eq, circleRow]

theorem lineRow_mem : lineRow ∈ EntReqTable.rows := by
  simp [EntReqTable.rows_eq, lineRow]

/-- Counterexample to C1: a cubic request whose `extraPoints` is `INT_MAX`, a
non-negative value: the `int` addition `4 + INT_MAX` wraps to a negative count and
`Generate` adds no point entity at all, not `4 + INT_MAX` of them. -/
theorem generate_cubic_int_max_no_point :
    sampleCubicIntMax.type = cubicRow.reqType ∧ 0 ≤ sampleCubicIntMax.extraPoints
      ∧ Request.pointsOf cubicRow sampleCubicIntMax = -2147483645
      ∧ (sampleCubicIntMax.addedEntities EntityType.zero emptySketch).countP Entity.isPoint
          = 0 := by
  decide

/-- C1 (amended): for a request whose kind has the table row `te`, whose `extraPoints`
is non-negative and whose point count `te.points` (plus `extraPoints` when the row is
extendable) is at most `MAX_POINTS_IN_ENTITY`, `Generate` returns and adds exactly that
number of point entities, one normal entity iff the row has a normal, one `DISTANCE`
entity iff the row has a distance, one entity of the row's entity kind iff that kind is
non-null, and nothing else. -/
theorem generate_entity_counts (te : EntReqTable.TableEntry) (hte : te ∈ EntReqTable.rows)
    (r : Request) (hr : r.type = te.reqType) (he : 0 ≤ r.extraPoints)
    (hsum : te.points + (if te.useExtraPoints then r.extraPoints else 0)
      ≤ (MAX_POINTS_IN_ENTITY : Int))
    (etInit : EntityType) (sk : Sketch) :
    (∃ sk2, r.Generate etInit sk = Outcome.done sk2
        ∧ sk2.entity = sk.entity ++ r.addedEntities etInit sk)
      ∧ (((r.addedEntities etInit sk).countP Entity.isPoint : Nat) : Int)
          = te.points + (if te.useExtraPoints then r.extraPoints else 0)
      ∧ (r.addedEntities etInit sk).countP Entity.isNormal = (if te.hasNormal then 1 else 0)
      ∧ (r.addedEntities etInit sk).countP Entity.isDistance
          = (if te.hasDistance then 1 else 0)
      ∧ (r.addedEntities etInit sk).countP (Entity.hasType te.entType)
          = (if te.entType ≠ EntityType.zero then 1 else 0)
      ∧ (r.addedEntities etInit sk).length
          = (r.addedEntities etInit sk).countP Entity.isPoint
            + (if te.hasNormal then 1 else 0) + (if te.hasDistance then 1 else 0)
            + (if te.entType ≠ EntityType.zero then 1 else 0) := by
  have hex := Request.pointsOf_exact te hte r he hsum
  have hmax : Request.pointsOf te r ≤ (MAX_POINTS_IN_ENTITY : Int) := by
    rw [hex]
    exact hsum
  have hadd := Request.addedEntities_of_row te hte r hr etInit sk hmax
  have hgen := Request.Generate_of_row te hte r hr etInit sk hmax
  obtain ⟨_, _, hp1, _, h1, h2, h3, h4, h5⟩ := EntReqTable.row_facts te hte
  have hpts : 0 ≤ Request.pointsOf te r := by
    rw [hex]
    by_cases hx : te.useExtraPoints = true <;> simp [hx] <;> omega
  have hcast : (((Request.pointsOf te r).toNat : Nat) : Int)
      = te.points + (if te.useExtraPoints then r.extraPoints else 0) := by
    rw [Int.toNat_of_nonneg hpts, hex]
  have hN := fun e => Request.normalEntity_kinds r e
  have hD := Request.distanceEntity_kinds r
  have hP := fun a b => Request.primaryFinal_kinds te hte r (Request.pointsOf te r) a b
  have c1 := Request.countP_points Entity.isPoint r te.entType (Request.pointsOf te r).toNat
    true (fun i => Request.pointEntity_isPoint r te.entType i)
  have c2 := Request.countP_points Entity.isNormal r te.entType (Request.pointsOf te r).toNat
    false (fun i => (Request.pointEntity_kinds r te.entType i).1)
  have c3 := Request.countP_points Entity.isDistance r te.entType
    (Request.pointsOf te r).toNat false (fun i => (Request.pointEntity_kinds r te.entType i).2)
  have c4 := Request.countP_points (Entity.hasType te.entType) r te.entType
    (Request.pointsOf te r).toNat false (fun i => by
      unfold Entity.hasType
      rw [Request.pointEntity_type]
      by_cases hw : r.workplane.v = Entity.FREE_IN_3D.v <;> simp [hw, Ne.symm h1, Ne.symm h2])
  have hNT : ∀ e, Entity.hasType te.entType (Request.normalEntity r e) = false := by
    intro e
    unfold Entity.hasType
    rw [Request.normalEntity_type]
    by_cases hw : r.workplane.v = Entity.FREE_IN_3D.v <;> simp [hw, Ne.symm h3, Ne.symm h4]
  have hDT : Entity.hasType te.entType (Request.distanceEntity r) = false := by
    unfold Entity.hasType
    rw [Request.distanceEntity_type]
    simp [Ne.symm h5]
  have hPT : ∀ a b, Entity.hasType te.entType (Request.primaryFinal r te.entType
      (Request.pointsOf te r) a b) = true := by
    intro a b
    unfold Entity.hasType
    rw [Request.primaryFinal_type]
    simp
  refine ⟨⟨_, hgen, by rw [hadd]⟩, ?_, ?_, ?_, ?_, ?_⟩ <;>
    rw [hadd] <;> unfold Request.expectedEntities <;>
    simp only [List.countP_append, List.length_append, c1, c2, c3, c4, List.length_map,
      List.length_range] <;>
    by_cases hz : te.entType ≠ EntityType.zero <;>
    simp only [if_pos hz, if_neg hz] <;>
    cases te.hasNormal <;> cases te.hasDistance <;>
    simp [hN, hD, hP, hNT, hDT, hPT, hcast]

/-- Witness of C1 on a cubic request with two extra points: six point entities. -/
theorem generate_entity_counts_witness :
    cubicRow ∈ EntReqTable.rows ∧ sampleCubic.type = cubicRow.reqType
      ∧ 0 ≤ sampleCubic.extraPoints
      ∧ cubicRow.points + (if cubicRow.useExtraPoints then sampleCubic.extraPoints else 0)
          ≤ (MAX_POINTS_IN_ENTITY : Int)
      ∧ (((sampleCubic.addedEntities EntityType.zero emptySketch).countP Entity.isPoint : Nat)
          : Int) = 4 + 2
      ∧ (sampleCubic.addedEntities EntityType.zero emptySketch).length
          = (sampleCubic.addedEntities EntityType.zero emptySketch).countP Entity.isPoint
            + 0 + 0 + 1 :=
  ⟨cubicRow_mem, rfl, by decide, by decide,
    (generate_entity_counts cubicRow cubicRow_mem sampleCubic rfl (by decide) (by decide)
      EntityType.zero emptySketch).2.1,
    (generate_entity_counts cubicRow cubicRow_mem sampleCubic rfl (by decide) (by decide)
      EntityType.zero emptySketch).2.2.2.2.2⟩

/-- C4: for a request whose kind has the table row `te` and whose point count is at most
`MAX_POINTS_IN_ENTITY`, the handles of the entities added by one call of `Generate` are
pairwise distinct; among them a normal has handle `h.entity(32)`, a distance
`h.entity(64)` and the entity of the row's kind `h.entity(0)`. -/
theorem generate_entity_handles_distinct (te : EntReqTable.TableEntry)
    (hte : te ∈ EntReqTable.rows) (r : Request) (hr : r.type = te.reqType)
    (etInit : EntityType) (sk : Sketch)
    (hmax : Request.pointsOf te r ≤ (MAX_POINTS_IN_ENTITY : Int)) :
    ((r.addedEntities etInit sk).map (fun e => e.h)).Nodup
      ∧ ∀ e ∈ r.addedEntities etInit sk,
          (e.isNormal = true → e.h = r.h.entity 32)
            ∧ (e.isDistance = true → e.h = r.h.entity 64)
            ∧ (e.hasType te.entType = true → e.h = r.h.entity 0) := by
  have hadd := Request.addedEntities_of_row te hte r hr etInit sk hmax
  have hn : (Request.pointsOf te r).toNat ≤ 12 := by
    have : (MAX_POINTS_IN_ENTITY : Int) = 12 := rfl
    omega
  obtain ⟨_, _, _, _, h1, h2, h3, h4, h5⟩ := EntReqTable.row_facts te hte
  constructor
  · rw [hadd, Request.expectedEntities_handles]
    obtain ⟨hnd, hlt⟩ := entityOffsets_ok (decide (te.entType ≠ EntityType.zero))
      (Request.pointsOf te r).toNat te.hasNormal te.hasDistance hn
    exact List.Nodup.map_on
      (fun x hx y hy hxy => hRequest.entity_inj r.h x y (hlt x hx) (hlt y hy) hxy) hnd
  · intro e he
    rw [hadd] at he
    unfold Request.expectedEntities at he
    simp only [List.mem_append, List.mem_map, List.mem_range] at he
    rcases he with ((⟨i, _, rfl⟩ | he) | he) | he
    · have hk := Request.pointEntity_kinds r te.entType i
      refine ⟨by simp [hk.1], by simp [hk.2], ?_⟩
      unfold Entity.hasType
      rw [Request.pointEntity_type]
      by_cases hw : r.workplane.v = Entity.FREE_IN_3D.v <;> simp [hw, Ne.symm h1, Ne.symm h2]
    · cases hN : te.hasNormal <;> simp [hN] at he
      subst he
      refine ⟨fun _ => rfl, by simp [(Request.normalEntity_kinds r _).2.2], ?_⟩
      unfold Entity.hasType
      rw [Request.normalEntity_type]
      by_cases hw : r.workplane.v = Entity.FREE_IN_3D.v <;> simp [hw, Ne.symm h3, Ne.symm h4]
    · cases hD : te.hasDistance <;> simp [hD] at he
      subst he
      refine ⟨by simp [(Request.distanceEntity_kinds r).2.1], fun _ => rfl, ?_⟩
      unfold Entity.hasType
      rw [Request.distanceEntity_type]
      simp [Ne.symm h5]
    · by_cases hz : te.entType ≠ EntityType.zero
      · simp only [if_pos hz, List.mem_singleton] at he
        subst he
        have hk := Request.primaryFinal_kinds te hte r (Request.pointsOf te r) te.hasNormal
          te.hasDistance
        have hh := congrArg (fun l => l.getLast?) (Request.expectedEntities_handles r te.entType
          (Request.pointsOf te r) te.hasNormal te.hasDistance)
        refine ⟨by simp [hk.2.1], by simp [hk.2.2], fun _ => ?_⟩
        simpa [Request.expectedEntities, entityOffsets, hz] using hh
      · simp [if_neg hz] at he

/-- Witness of C4 on a cubic request with two extra points. -/
theorem generate_entity_handles_distinct_witness :
    cubicRow ∈ EntReqTable.rows ∧ sampleCubic.type = cubicRow.reqType
      ∧ Request.pointsOf cubicRow sampleCubic ≤ (MAX_POINTS_IN_ENTITY : Int)
      ∧ ((sampleCubic.addedEntities EntityType.zero emptySketch).map (fun e => e.h)).Nodup :=
  ⟨cubicRow_mem, rfl, by decide,
    (generate_entity_handles_distinct cubicRow cubicRow_mem sampleCubic rfl EntityType.zero
      emptySketch (by decide)).1⟩

/-- C5: for a request whose kind has the table row `te` and whose point count is at most
`MAX_POINTS_IN_ENTITY`, the handles of the parameters added by one call of `Generate`
(those of the points, of the normal and of the distance) are pairwise distinct. -/
theorem generate_param_handles_distinct (te : EntReqTable.TableEntry)
    (hte : te ∈ EntReqTable.rows) (r : Request) (hr : r.type = te.reqType)
    (etInit : EntityType) (sk : Sketch)
    (hmax : Request.pointsOf te r ≤ (MAX_POINTS_IN_ENTITY : Int)) :
    ((r.addedParams etInit sk).map (fun pa => pa.h)).Nodup := by
  have hn : (Request.pointsOf te r).toNat ≤ 12 := by
    have : (MAX_POINTS_IN_ENTITY : Int) = 12 := rfl
    omega
  have h3 : te.hasNormal = true → (Request.pointsOf te r).toNat ≤ 3 := by
    intro h
    obtain ⟨hx, _, hp⟩ := (EntReqTable.row_facts te hte).1 h
    rw [Request.pointsOf_eq]
    simp only [hx, Bool.false_eq_true, if_false, add_zero]
    omega
  rw [Request.addedParams_of_row te hte r hr etInit sk hmax, Request.expectedParams_handles]
  obtain ⟨hnd, hlt⟩ := paramOffsets_ok (decide (r.workplane.v = Entity.FREE_IN_3D.v))
    (Request.pointsOf te r).toNat te.hasNormal te.hasDistance hn h3
  exact List.Nodup.map_on
    (fun x hx y hy hxy => hRequest.param_inj r.h x y (hlt x hx) (hlt y hy) hxy) hnd

/-- Witness of C5 on a circle request free in 3D: eight distinct parameter handles. -/
theorem generate_param_handles_distinct_witness :
    circleRow ∈ EntReqTable.rows ∧ sampleCircle3d.type = circleRow.reqType
      ∧ Request.pointsOf circleRow sampleCircle3d ≤ (MAX_POINTS_IN_ENTITY : Int)
      ∧ ((sampleCircle3d.addedParams EntityType.zero emptySketch).map (fun pa => pa.h)).Nodup :=
  ⟨circleRow_mem, rfl, by decide,
    generate_param_handles_distinct circleRow circleRow_mem sampleCircle3d rfl EntityType.zero
      emptySketch (by decide)⟩

/-- C6: for a request whose kind has the table row `te` and whose point count is at most
`MAX_POINTS_IN_ENTITY`, and for every index `i` below the point count, `IndexOfPoint`
applied to the handle of the `i`-th point entity added by `Generate` returns `i`. -/
theorem indexOfPoint_generated (te : EntReqTable.TableEntry) (hte : te ∈ EntReqTable.rows)
    (r : Request) (hr : r.type = te.reqType) (etInit : EntityType) (sk : Sketch)
    (hmax : Request.pointsOf te r ≤ (MAX_POINTS_IN_ENTITY : Int))
    (i : Nat) (hi : (i : Int) < Request.pointsOf te r) :
    ∃ p, (r.addedPoints etInit sk)[i]? = some p ∧ r.IndexOfPoint p.h = (i : Int) := by
  have hpts := Request.addedPoints_of_row te hte r hr etInit sk hmax
  have hM : (MAX_POINTS_IN_ENTITY : Int) = 12 := rfl
  have hi2 : i < (Request.pointsOf te r).toNat := by omega
  refine ⟨Request.pointEntity r te.entType i, by rw [hpts]; simp [hi2], ?_⟩
  obtain ⟨hd1, hd2⟩ := EntReqTable.row_datum te hte
  unfold Request.IndexOfPoint
  by_cases hz : te.entType = EntityType.zero
  · have hdat : r.type = RequestType.DATUM_POINT := by rw [hr]; exact hd1.1 hz
    obtain ⟨hp, hx⟩ := hd2 (hd1.1 hz)
    have hi0 : i = 0 := by
      rw [Request.pointsOf_eq, hp, hx] at hi
      simp at hi
      omega
    subst hi0
    simp [hdat, Request.pointEntity, hz]
  · have hdat : r.type ≠ RequestType.DATUM_POINT := by
      rw [hr]
      exact fun h => hz (hd1.2 h)
    rw [if_neg hdat]
    have hh : (Request.pointEntity r te.entType i).h = r.h.entity (i + 1) := by
      simp [Request.pointEntity, hz]
    rw [hh]
    exact Request.indexScan_hit r.h i (by omega) MAX_POINTS_IN_ENTITY 0 (Nat.zero_le _)
      (by have : MAX_POINTS_IN_ENTITY = 12 := rfl
          omega)

/-- Witness of C6 on the sixth point of a cubic request with two extra points. -/
theorem indexOfPoint_generated_witness :
    cubicRow ∈ EntReqTable.rows ∧ sampleCubic.type = cubicRow.reqType
      ∧ Request.pointsOf cubicRow sampleCubic ≤ (MAX_POINTS_IN_ENTITY : Int)
      ∧ ((5 : Nat) : Int) < Request.pointsOf cubicRow sampleCubic
      ∧ ∃ p, (sampleCubic.addedPoints EntityType.zero emptySketch)[5]? = some p
          ∧ sampleCubic.IndexOfPoint p.h = ((5 : Nat) : Int) :=
  ⟨cubicRow_mem, rfl, by decide, by decide,
    indexOfPoint_generated cubicRow cubicRow_mem sampleCubic rfl EntityType.zero emptySketch
      (by decide) 5 (by decide)⟩

/-- Counterexample to C7: a line-segment request generates two points, with handles
`h.entity(1)` and `h.entity(2)`; the handle `h.entity(3)` is none of them, and
`IndexOfPoint` returns 2 for it, not -1. -/
theorem indexOfPoint_foreign_handle_found :
    sampleLine.h.entity 3 ∉ (sampleLine.addedPoints EntityType.zero emptySketch).map (fun e => e.h)
      ∧ sampleLine.IndexOfPoint (sampleLine.h.entity 3) = 2 := by
  decide

/-- `IndexOfPoint` returns -1 exactly for the handles that differ from every sub-handle
it compares with. -/
theorem indexOfPoint_miss_iff (r : Request) (he : hEntity) :
    r.IndexOfPoint he = -1 ↔
      (if r.type = RequestType.DATUM_POINT then he ≠ r.h.entity 0
       else ∀ j, j < MAX_POINTS_IN_ENTITY → he ≠ r.h.entity (j + 1)) := by
  unfold Request.IndexOfPoint
  by_cases hd : r.type = RequestType.DATUM_POINT
  · rw [if_pos hd, if_pos hd]
    by_cases hv : he.v = (r.h.entity 0).v
    · rw [if_pos hv]
      constructor
      · intro h
        omega
      · intro h
        exact absurd (by cases he; cases hj : r.h.entity 0; simp_all) h
    · rw [if_neg hv]
      constructor
      · intro _ heq
        exact hv (by rw [heq])
      · intro _
        rfl
  · rw [if_neg hd, if_neg hd, Request.indexScan_miss]
    constructor
    · intro h j hj
      exact h j (Nat.zero_le _) (by omega)
    · intro h k _ hk
      exact h k (by omega)

/-- C7 (amended): `IndexOfPoint` returns -1 exactly for the handles that differ from
every sub-handle it compares with: `h.entity(0)` for a datum-point request, and
`h.entity(1)` to `h.entity(MAX_POINTS_IN_ENTITY)` for every other request. For a request
that is not a datum point, the handle `h.entity(j+1)` with `j < MAX_POINTS_IN_ENTITY` is
reported as index `j`, whatever number of points the request generated; for a
datum-point request `h.entity(0)` is reported as index 0. -/
theorem indexOfPoint_not_found_iff (r : Request) (he : hEntity) :
    (r.IndexOfPoint he = -1 ↔
        (if r.type = RequestType.DATUM_POINT then he ≠ r.h.entity 0
         else ∀ j, j < MAX_POINTS_IN_ENTITY → he ≠ r.h.entity (j + 1)))
      ∧ (r.type ≠ RequestType.DATUM_POINT →
          ∀ j, j < MAX_POINTS_IN_ENTITY → r.IndexOfPoint (r.h.entity (j + 1)) = (j : Int))
      ∧ (r.type = RequestType.DATUM_POINT → r.IndexOfPoint (r.h.entity 0) = 0) := by
  have hM : MAX_POINTS_IN_ENTITY = 12 := rfl
  refine ⟨indexOfPoint_miss_iff r he, ?_, ?_⟩
  · intro hd j hj
    unfold Request.IndexOfPoint
    rw [if_neg hd]
    exact Request.indexScan_hit r.h j (by omega) MAX_POINTS_IN_ENTITY 0 (Nat.zero_le _)
      (by omega)
  · intro hd
    unfold Request.IndexOfPoint
    rw [if_pos hd]
    simp

/-- C8: for every table row with a non-null entity kind, `GetRequestInfo` on the row's
request kind succeeds and reports the row's entity kind, and `GetEntityInfo` on that
entity kind succeeds and reports the row's request kind. -/
theorem lookups_inverse (te : EntReqTable.TableEntry) (hte : te ∈ EntReqTable.rows)
    (hnz : te.entType ≠ EntityType.zero) (x y : Int) :
    ∃ info, EntReqTable.GetRequestInfo te.reqType x = some info ∧ info.ent = te.entType
      ∧ ∃ info2, EntReqTable.GetEntityInfo info.ent y = some info2
          ∧ info2.req = te.reqType := by
  rw [EntReqTable.rows_eq] at hte
  simp only [List.mem_cons, List.mem_singleton, List.not_mem_nil, or_false] at hte
  rcases hte with h | h | h | h | h | h | h | h <;> subst h <;>
    simp [EntReqTable.GetRequestInfo, EntReqTable.GetEntityInfo, EntReqTable.findRequest,
      EntReqTable.findEntity, EntReqTable.Table, EntReqTable.CopyEntityInfo] at hnz ⊢

/-- Witness of C8 on the circle row. -/
theorem lookups_inverse_witness :
    circleRow ∈ EntReqTable.rows ∧ circleRow.entType ≠ EntityType.zero
      ∧ ∃ info, EntReqTable.GetRequestInfo circleRow.reqType 0 = some info
          ∧ info.ent = circleRow.entType
          ∧ ∃ info2, EntReqTable.GetEntityInfo info.ent 0 = some info2
              ∧ info2.req = circleRow.reqType :=
  ⟨circleRow_mem, by decide, lookups_inverse circleRow circleRow_mem (by decide) 0 0⟩

/-- Counterexample to C9: a circle request with `extraPoints = 0` lying in a real
workplane gets three parameters (two of its point, none of its normal, one of its
distance), not four. -/
theorem generate_circle_in_workplane_three_params :
    sampleCircle2d.type = RequestType.CIRCLE ∧ sampleCircle2d.extraPoints = 0
      ∧ sampleCircle2d.workplane.v ≠ Entity.FREE_IN_3D.v
      ∧ (sampleCircle2d.addedParams EntityType.zero emptySketch).length = 3
      ∧ (sampleCircle2d.addedParams EntityType.zero emptySketch).length ≠ 4 := by
  decide

/-- C9 (amended): expanding a circle request with `extraPoints = 0` adds exactly four
entities (one `CIRCLE`, one point, one normal, one distance) and adds eight parameters
when the workplane is `FREE_IN_3D` and three parameters when the request lies in a real
workplane. -/
theorem generate_circle (r : Request) (hk : r.type = RequestType.CIRCLE)
    (_he : r.extraPoints = 0) (etInit : EntityType) (sk : Sketch) :
    (r.addedEntities etInit sk).length = 4
      ∧ (r.addedEntities etInit sk).countP (Entity.hasType EntityType.CIRCLE) = 1
      ∧ (r.addedEntities etInit sk).countP Entity.isPoint = 1
      ∧ (r.addedEntities etInit sk).countP Entity.isNormal = 1
      ∧ (r.addedEntities etInit sk).countP Entity.isDistance = 1
      ∧ (r.workplane.v = Entity.FREE_IN_3D.v → (r.addedParams etInit sk).length = 8)
      ∧ (r.workplane.v ≠ Entity.FREE_IN_3D.v → (r.addedParams etInit sk).length = 3) := by
  have hpts : Request.pointsOf circleRow r = 1 := rfl
  have hle : Request.pointsOf circleRow r ≤ (MAX_POINTS_IN_ENTITY : Int) := by
    rw [hpts]
    decide
  have hadd := Request.addedEntities_of_row circleRow circleRow_mem r hk etInit sk hle
  have hpar := Request.addedParams_of_row circleRow circleRow_mem r hk etInit sk hle
  have hT : (Request.primaryFinal r EntityType.CIRCLE 1 true true).type = EntityType.CIRCLE :=
    Request.primaryFinal_type _ _ _ _ _
  rw [hadd, hpar, hpts]
  by_cases hw : r.workplane.v = Entity.FREE_IN_3D.v <;>
    simp [Request.expectedEntities, Request.expectedParams, circleRow, List.range_succ,
      List.countP_cons, Entity.hasType, Entity.isPoint, Entity.isNormal, Entity.isDistance,
      Request.pointEntity_type, Request.normalEntity_type, Request.distanceEntity_type, hT,
      Request.pointParams, Request.normalParams, hw]

/-- Witness of C9 (amended) on a circle request free in 3D: eight parameters. -/
theorem generate_circle_witness :
    sampleCircle3d.type = RequestType.CIRCLE ∧ sampleCircle3d.extraPoints = 0
      ∧ (sampleCircle3d.addedEntities EntityType.zero emptySketch).length = 4
      ∧ (sampleCircle3d.addedParams EntityType.zero emptySketch).length = 8 :=
  ⟨rfl, rfl, (generate_circle sampleCircle3d rfl rfl EntityType.zero emptySketch).1,
    (generate_circle sampleCircle3d rfl rfl EntityType.zero emptySketch).2.2.2.2.2.1 rfl⟩

/-- C10: after `Generate` on a request whose kind has the table row `te` and whose point
count is at most `MAX_POINTS_IN_ENTITY`: the added entity of the row's kind has handle
`h.entity(0)`, its point slot `i` holds the handle of the `i`-th added point for every
`i` below the point count, and its normal and distance fields hold the handles of the
added normal and distance when the row has them; the added normal's point slot 0 holds
the first added point's handle and, free in 3D, its four parameter slots hold
`h.param(32)` to `h.param(35)`; the added distance's slot 0 holds `h.param(64)`; and
every parameter slot of every added entity is empty or holds the handle of a parameter
added by the same call. -/
theorem generate_cross_references (te : EntReqTable.TableEntry) (hte : te ∈ EntReqTable.rows)
    (r : Request) (hr : r.type = te.reqType) (etInit : EntityType) (sk : Sketch)
    (hmax : Request.pointsOf te r ≤ (MAX_POINTS_IN_ENTITY : Int)) :
    (te.entType ≠ EntityType.zero →
        ∃ e ∈ r.addedEntities etInit sk, e.hasType te.entType = true ∧ e.h = r.h.entity 0
          ∧ (∀ i : Nat, (i : Int) < Request.pointsOf te r →
              ∃ p, (r.addedPoints etInit sk)[i]? = some p ∧ e.pointAt i = p.h)
          ∧ (te.hasNormal = true →
              ∃ n ∈ r.addedEntities etInit sk, n.isNormal = true ∧ e.normal = n.h)
          ∧ (te.hasDistance = true →
              ∃ d ∈ r.addedEntities etInit sk, d.isDistance = true ∧ e.distance = d.h))
      ∧ (te.hasNormal = true →
          ∃ n ∈ r.addedEntities etInit sk, n.isNormal = true
            ∧ (∃ p, (r.addedPoints etInit sk)[0]? = some p ∧ n.pointAt 0 = p.h)
            ∧ (r.workplane.v = Entity.FREE_IN_3D.v →
                ∀ k, k < 4 → n.paramAt k = r.h.param (32 + k)))
      ∧ (te.hasDistance = true →
          ∃ d ∈ r.addedEntities etInit sk, d.isDistance = true ∧ d.paramAt 0 = r.h.param 64)
      ∧ (∀ e ∈ r.addedEntities etInit sk, ∀ k,
          e.paramAt k = ⟨0⟩ ∨ (⟨e.paramAt k⟩ : Param) ∈ r.addedParams etInit sk) := by
  have hadd := Request.addedEntities_of_row te hte r hr etInit sk hmax
  have hpar := Request.addedParams_of_row te hte r hr etInit sk hmax
  have hpts := Request.addedPoints_of_row te hte r hr etInit sk hmax
  have hle : (Request.pointsOf te r).toNat ≤ MAX_POINTS_IN_ENTITY := by omega
  obtain ⟨hf1, _, _⟩ := EntReqTable.row_facts te hte
  have hpoint : ∀ i : Nat, (i : Int) < Request.pointsOf te r →
      (r.addedPoints etInit sk)[i]? = some (Request.pointEntity r te.entType i) := by
    intro i hi
    have hi2 : i < (Request.pointsOf te r).toNat := by omega
    rw [hpts]
    simp [hi2]
  have hnormal : te.hasNormal = true →
      Request.normalEntity r (Request.primaryAfter r te.entType (Request.pointsOf te r).toNat
        (Request.primaryInit r te.entType)) ∈ r.addedEntities etInit sk := by
    intro hn
    rw [hadd]
    simp [Request.expectedEntities, hn]
  have hdist : te.hasDistance = true → Request.distanceEntity r ∈ r.addedEntities etInit sk := by
    intro hd
    rw [hadd]
    simp [Request.expectedEntities, hd]
  have hone : te.hasNormal = true → (0 : Int) < Request.pointsOf te r := by
    intro hn
    obtain ⟨hx, hp, _⟩ := hf1 hn
    rw [Request.pointsOf_eq]
    simp only [hx, Bool.false_eq_true, if_false, add_zero]
    omega
  obtain ⟨pf1, pf2, pf3, pf4, pf5⟩ := Request.primaryFinal_fields r te.entType
    (Request.pointsOf te r) te.hasNormal te.hasDistance
  refine ⟨?_, ?_, ?_, ?_⟩
  · intro hz
    refine ⟨Request.primaryFinal r te.entType (Request.pointsOf te r) te.hasNormal
      te.hasDistance, ?_, ?_, pf1, ?_, ?_, ?_⟩
    · rw [hadd]
      simp [Request.expectedEntities, hz]
    · simp [Entity.hasType, Request.primaryFinal_type]
    · intro i hi
      refine ⟨_, hpoint i hi, ?_⟩
      unfold Entity.pointAt
      rw [pf3]
      exact Request.pointAt_after r te.entType _ i (by omega) hle
    · intro hn
      exact ⟨_, hnormal hn, (Request.normalEntity_kinds r _).2.1, pf4 hn⟩
    · intro hd
      exact ⟨_, hdist hd, (Request.distanceEntity_kinds r).2.2, pf5 hd⟩
  · intro hn
    obtain ⟨nf1, nf2, nf3, _⟩ := Request.normalEntity_fields r (Request.primaryAfter r
      te.entType (Request.pointsOf te r).toNat (Request.primaryInit r te.entType))
    refine ⟨_, hnormal hn, (Request.normalEntity_kinds r _).2.1,
      ⟨_, hpoint 0 (by simpa using hone hn), ?_⟩, ?_⟩
    · rw [nf2, Request.primaryAfter_eq]
      have h0 : 0 < (Request.pointsOf te r).toNat := by have := hone hn; omega
      exact Request.pointAt_after r te.entType _ 0 h0 hle
    · intro hw k hk
      unfold Entity.paramAt
      rw [nf3 hw]
      have : k = 0 ∨ k = 1 ∨ k = 2 ∨ k = 3 := by omega
      rcases this with h | h | h | h <;> subst h <;> simp
  · intro hd
    exact ⟨_, hdist hd, (Request.distanceEntity_kinds r).2.2, by
      simp [Entity.paramAt, Request.distanceEntity]⟩
  · intro e he k
    unfold Entity.paramAt
    apply Request.slot_resolvable
    rw [hadd] at he
    rw [hpar]
    unfold Request.expectedEntities at he
    unfold Request.expectedParams
    simp only [List.mem_append, List.mem_map, List.mem_range] at he
    rcases he with ((⟨i, hi, rfl⟩ | he) | he) | he
    · have hin : ∀ x ∈ Request.pointParams r i,
          x ∈ (List.range (Request.pointsOf te r).toNat).flatMap (Request.pointParams r) :=
        fun x hx => List.mem_flatMap.2 ⟨i, List.mem_range.2 hi, hx⟩
      intro x hx
      by_cases hw : r.workplane.v = Entity.FREE_IN_3D.v
      · simp only [Request.pointEntity, hw, if_true, List.mem_cons, List.mem_singleton,
          List.not_mem_nil, or_false] at hx
        rcases hx with h | h | h | h <;> subst h
        · exact Or.inr (List.mem_append_left _ (List.mem_append_left _
            (hin _ (by simp [Request.pointParams, hw]))))
        · exact Or.inr (List.mem_append_left _ (List.mem_append_left _
            (hin _ (by simp [Request.pointParams, hw]))))
        · exact Or.inr (List.mem_append_left _ (List.mem_append_left _
            (hin _ (by simp [Request.pointParams, hw]))))
        · exact Or.inl rfl
      · simp only [Request.pointEntity, hw, if_false, List.mem_cons, List.mem_singleton,
          List.not_mem_nil, or_false] at hx
        rcases hx with h | h | h | h <;> subst h
        · exact Or.inr (List.mem_append_left _ (List.mem_append_left _
            (hin _ (by simp [Request.pointParams, hw]))))
        · exact Or.inr (List.mem_append_left _ (List.mem_append_left _
            (hin _ (by simp [Request.pointParams, hw]))))
        · exact Or.inl rfl
        · exact Or.inl rfl
    · cases hN : te.hasNormal <;> simp [hN] at he
      subst he
      intro x hx
      by_cases hw : r.workplane.v = Entity.FREE_IN_3D.v
      · right
        rw [(Request.normalEntity_fields r _).2.2.1 hw] at hx
        refine List.mem_append_left _ (List.mem_append_right _ ?_)
        simp only [List.mem_cons, List.mem_singleton, List.not_mem_nil, or_false] at hx
        rcases hx with h | h | h | h <;> subst h <;> simp [Request.normalParams, hw]
      · left
        rw [(Request.normalEntity_fields r _).2.2.2 hw] at hx
        simp only [Entity.zeroed, List.mem_replicate] at hx
        exact hx.2
    · cases hD : te.hasDistance <;> simp [hD] at he
      subst he
      intro x hx
      simp only [Request.distanceEntity, List.mem_cons, List.mem_singleton, List.not_mem_nil,
        or_false] at hx
      rcases hx with h | h | h | h <;> subst h
      · exact Or.inr (List.mem_append_right _ (by simp))
      · exact Or.inl rfl
      · exact Or.inl rfl
      · exact Or.inl rfl
    · by_cases hz : te.entType ≠ EntityType.zero
      · simp only [if_pos hz, List.mem_singleton] at he
        subst he
        intro x hx
        left
        rw [pf2] at hx
        simp only [Entity.zeroed, List.mem_replicate] at hx
        exact hx.2
      · simp [if_neg hz] at he

/-- Witness of C10 on a circle request free in 3D. -/
theorem generate_cross_references_witness :
    circleRow ∈ EntReqTable.rows ∧ sampleCircle3d.type = circleRow.reqType
      ∧ Request.pointsOf circleRow sampleCircle3d ≤ (MAX_POINTS_IN_ENTITY : Int)
      ∧ (∀ e ∈ sampleCircle3d.addedEntities EntityType.zero emptySketch, ∀ k,
          e.paramAt k = ⟨0⟩
            ∨ (⟨e.paramAt k⟩ : Param) ∈ sampleCircle3d.addedParams EntityType.zero emptySketch)
      ∧ (∃ d ∈ sampleCircle3d.addedEntities EntityType.zero emptySketch,
          d.isDistance = true ∧ d.paramAt 0 = sampleCircle3d.h.param 64) :=
  ⟨circleRow_mem, rfl, by decide,
    (generate_cross_references circleRow circleRow_mem sampleCircle3d rfl EntityType.zero
      emptySketch (by decide)).2.2.2,
    (generate_cross_references circleRow circleRow_mem sampleCircle3d rfl EntityType.zero
      emptySketch (by decide)).2.2.1 rfl⟩

/-- C11: the code at a request whose kind has no table row. `GetRequestInfo` returns
false; `Generate` does not look at that result and goes on with zero points, no normal,
no distance and the uninitialised `et`. Whatever value `et` holds, the call returns and
never ends in a fatal failure; when that value is zero it adds nothing, and when it is
not zero it adds one entity, the record `e` with handle `h.entity(0)`. -/
theorem generate_unknown_kind_not_fatal (etInit : EntityType) :
    EntReqTable.GetRequestInfo sampleUnknown.type sampleUnknown.extraPoints = none
      ∧ (∃ sk2, sampleUnknown.Generate etInit emptySketch = Outcome.done sk2)
      ∧ (∀ msg sk2, sampleUnknown.Generate etInit emptySketch ≠ Outcome.fatal msg sk2)
      ∧ (etInit = EntityType.zero → sampleUnknown.addedEntities etInit emptySketch = [])
      ∧ (etInit ≠ EntityType.zero →
          ∃ e, sampleUnknown.addedEntities etInit emptySketch = [e]
            ∧ e.h = sampleUnknown.h.entity 0 ∧ e.type = etInit) := by
  have hno : EntReqTable.GetRequestInfo sampleUnknown.type sampleUnknown.extraPoints = none :=
    rfl
  have hg := Request.Generate_of_unknown sampleUnknown hno etInit emptySketch
  refine ⟨hno, ⟨_, hg⟩, ?_, ?_, ?_⟩
  · intro msg sk2 h
    rw [hg] at h
    exact absurd h (by simp)
  · intro hz
    unfold Request.addedEntities
    rw [hg]
    simp [Outcome.sketch, hz, emptySketch]
  · intro hz
    refine ⟨Request.primaryFinal sampleUnknown etInit 0 false false, ?_,
      (Request.primaryFinal_fields _ _ _ _ _).1, Request.primaryFinal_type _ _ _ _ _⟩
    unfold Request.addedEntities
    rw [hg]
    simp [Outcome.sketch, hz, emptySketch]

/-- C12: when the recipe locals of `Generate` ask for a normal (`hasNormal = true`) and
give no point (`points ≤ 0`), the run ends in the failed assertion "Positioning a
normal requires a point" and the entity collection is what it was before the call: no
normal entity (and no other entity) has been added. -/
theorem generate_normal_without_point_fatal (r : Request) (et : EntityType) (points : Int)
    (hasDistance : Bool) (sk : Sketch) (h0 : points ≤ 0) :
    ∃ sk2, Request.generateBody r et points true hasDistance sk
        = Outcome.fatal "Positioning a normal requires a point" sk2
      ∧ sk2.entity = sk.entity ∧ sk2.entity.countP Entity.isNormal
          = sk.entity.countP Entity.isNormal :=
  ⟨_, Request.generateBody_fatal r et points hasDistance sk h0, rfl, rfl⟩

/-- Witness of C12 on a circle request run with the recipe of a circle but zero points. -/
theorem generate_normal_without_point_fatal_witness :
    (0 : Int) ≤ 0
      ∧ ∃ sk2, Request.generateBody sampleCircle3d EntityType.CIRCLE 0 true true emptySketch
          = Outcome.fatal "Positioning a normal requires a point" sk2
        ∧ sk2.entity = emptySketch.entity ∧ sk2.entity.countP Entity.isNormal
            = emptySketch.entity.countP Entity.isNormal :=
  ⟨le_refl 0,
    generate_normal_without_point_fatal sampleCircle3d EntityType.CIRCLE 0 true emptySketch
      (le_refl 0)⟩

/-- Counterexample to C13: for the cubic kind, extendable with 4 base points, and
`extraPoints = INT_MAX`, the reported point count is the wrapped `int` sum -2147483645,
not `4 + INT_MAX`. -/
theorem getRequestInfo_cubic_int_max :
    (EntReqTable.GetRequestInfo RequestType.CUBIC 2147483647).map (fun info => info.pts)
        = some (-2147483645)
      ∧ (-2147483645 : Int) ≠ 4 + 2147483647 := by
  decide

/-- C13 (amended): `GetRequestInfo(kind, extraPoints)` returns found exactly when some
row before the sentinel has request kind `kind`; it then reports that row's entity kind,
normal and distance flags, and as point count the row's points alone when the row is not
extendable and the 32-bit `int` sum of the row's points and `extraPoints` when it is:
the exact sum whenever that lies in the `int` range; for the zero kind it returns
not-found. -/
theorem getRequestInfo_found_iff (kind : RequestType) (x : Int) :
    ((∃ info, EntReqTable.GetRequestInfo kind x = some info)
        ↔ ∃ te ∈ EntReqTable.rows, te.reqType = kind)
      ∧ (EntReqTable.GetRequestInfo kind x = none
        ↔ ∀ te ∈ EntReqTable.rows, te.reqType ≠ kind)
      ∧ (∀ te ∈ EntReqTable.rows, te.reqType = kind →
          ∃ info, EntReqTable.GetRequestInfo kind x = some info
            ∧ info.ent = te.entType ∧ info.hasNormal = te.hasNormal
            ∧ info.hasDistance = te.hasDistance
            ∧ info.pts = (if te.useExtraPoints then EntReqTable.wrapInt32 (te.points + x)
                          else te.points)
            ∧ (-2147483648 ≤ te.points + x → te.points + x < 2147483648 →
                info.pts = (if te.useExtraPoints then te.points + x else te.points)))
      ∧ EntReqTable.GetRequestInfo RequestType.zero x = none := by
  have hrow : ∀ te ∈ EntReqTable.rows, te.reqType = kind →
      EntReqTable.GetRequestInfo kind x = some (EntReqTable.CopyEntityInfo te x) := by
    intro te hte hk
    rw [← hk]
    exact EntReqTable.getRequestInfo_of_row te hte x
  refine ⟨⟨?_, ?_⟩, ⟨?_, ?_⟩, ?_, rfl⟩
  · intro ⟨info, hinfo⟩
    unfold EntReqTable.GetRequestInfo at hinfo
    cases hf : EntReqTable.findRequest kind EntReqTable.Table with
    | none => simp [hf] at hinfo
    | some te =>
      obtain ⟨h1, h2⟩ := EntReqTable.findRequest_some kind _ te hf
      exact ⟨te, h1, h2⟩
  · intro ⟨te, hte, hk⟩
    exact ⟨_, hrow te hte hk⟩
  · intro hnone te hte hk
    rw [hrow te hte hk] at hnone
    exact absurd hnone (by simp)
  · intro hall
    unfold EntReqTable.GetRequestInfo
    cases hf : EntReqTable.findRequest kind EntReqTable.Table with
    | none => rfl
    | some te =>
      obtain ⟨h1, h2⟩ := EntReqTable.findRequest_some kind _ te hf
      exact absurd h2 (hall te h1)
  · intro te hte hk
    have hpts : (EntReqTable.CopyEntityInfo te x).pts
        = (if te.useExtraPoints then EntReqTable.wrapInt32 (te.points + x) else te.points) := by
      unfold EntReqTable.CopyEntityInfo
      by_cases hx : te.useExtraPoints = true <;> simp [hx]
    refine ⟨_, hrow te hte hk, rfl, rfl, rfl, hpts, ?_⟩
    intro h1 h2
    rw [hpts, Request.wrapInt32_of_range _ h1 h2]

/-- C14: `GetRequestForEntity(kind)` fails its assertion exactly when `GetEntityInfo`
reports not-found, which is exactly when no row before the sentinel has entity kind
`kind`; otherwise it returns the request kind of the row with that entity kind. -/
theorem getRequestForEntity_fatal_iff (kind : EntityType) :
    ((∃ msg, EntReqTable.GetRequestForEntity kind = Except.error msg)
        ↔ EntReqTable.GetEntityInfo kind 0 = none)
      ∧ (EntReqTable.GetEntityInfo kind 0 = none
        ↔ ∀ te ∈ EntReqTable.rows, te.entType ≠ kind)
      ∧ (∀ te ∈ EntReqTable.rows, te.entType = kind →
          EntReqTable.GetRequestForEntity kind = Except.ok te.reqType) := by
  have hrow : ∀ te ∈ EntReqTable.rows, te.entType = kind →
      EntReqTable.GetEntityInfo kind 0 = some (EntReqTable.CopyEntityInfo te 0) := by
    intro te hte hk
    rw [← hk]
    simp [EntReqTable.GetEntityInfo, EntReqTable.findEntity_of_row te hte]
  refine ⟨⟨?_, ?_⟩, ⟨?_, ?_⟩, ?_⟩
  · intro ⟨msg, hmsg⟩
    unfold EntReqTable.GetRequestForEntity at hmsg
    cases hg : EntReqTable.GetEntityInfo kind 0 with
    | none => rfl
    | some info => simp [hg] at hmsg
  · intro hnone
    exact ⟨"No entity for request", by simp [EntReqTable.GetRequestForEntity, hnone]⟩
  · intro hnone te hte hk
    rw [hrow te hte hk] at hnone
    exact absurd hnone (by simp)
  · intro hall
    unfold EntReqTable.GetEntityInfo
    cases hf : EntReqTable.findEntity kind EntReqTable.Table with
    | none => rfl
    | some te =>
      obtain ⟨h1, h2⟩ := EntReqTable.findEntity_some kind _ te hf
      exact absurd h2 (hall te h1)
  · intro te hte hk
    simp [EntReqTable.GetRequestForEntity, hrow te hte hk, EntReqTable.CopyEntityInfo]

/-- Counterexample to C15: for the reserved handle of the XY reference the tag is
`r001-#XY`: the label is `#XY`, and the whole tag is shorter than the text
`reference-XY`; and the hexadecimal index is not of fixed width: three digits for the
handle 1, four for the handle `0x1234`. -/
theorem descriptionString_reference_xy :
    sampleReferenceXY.h = Request.HREQUEST_REFERENCE_XY
      ∧ sampleReferenceXY.DescriptionString = some "r001-#XY"
      ∧ "r001-#XY".length < "reference-XY".length
      ∧ sampleWideHandle.DescriptionString = some "r1234-line-segment" := by
  decide

/-- C15 (amended): `DescriptionString` returns `r`, the request handle in lower-case
hexadecimal padded with zeros to at least three digits, a dash and a label; the label
is `#XY`, `#YZ`, `#ZX` when the handle is the reserved handle of the XY, YZ, ZX reference,
whatever the request kind is, and otherwise `DescriptionForRequest(kind)`, which is the
description of the table row of that kind, or `???` when the kind has no row. -/
theorem descriptionString_format (r : Request) :
    ∃ label, r.DescriptionString = some ("r" ++ Request.hex03 r.h.v ++ "-" ++ label)
      ∧ 3 ≤ (Request.hex03 r.h.v).length
      ∧ (r.h = Request.HREQUEST_REFERENCE_XY → label = "#XY")
      ∧ (r.h = Request.HREQUEST_REFERENCE_YZ → label = "#YZ")
      ∧ (r.h = Request.HREQUEST_REFERENCE_ZX → label = "#ZX")
      ∧ (r.h ≠ Request.HREQUEST_REFERENCE_XY → r.h ≠ Request.HREQUEST_REFERENCE_YZ →
          r.h ≠ Request.HREQUEST_REFERENCE_ZX →
          EntReqTable.DescriptionForRequest r.type = some label
            ∧ (∀ te ∈ EntReqTable.rows, te.reqType = r.type → te.description = some label)
            ∧ ((∀ te ∈ EntReqTable.rows, te.reqType ≠ r.type) → label = "???")) := by
  have hv : ∀ a : hRequest, r.h = a ↔ r.h.v = a.v := by
    intro a
    constructor
    · intro h
      rw [h]
    · intro h
      cases hr : r.h
      cases a
      simp_all
  by_cases h1 : r.h.v = Request.HREQUEST_REFERENCE_XY.v
  · refine ⟨"#XY", by simp only [Request.DescriptionString, Request.ssprintf_r03x_s, if_pos h1,
        Option.map],
      Request.hex03_length _, fun _ => rfl, ?_, ?_, ?_⟩
    · intro h
      rw [(hv _).1 h] at h1
      exact absurd h1 (by decide)
    · intro h
      rw [(hv _).1 h] at h1
      exact absurd h1 (by decide)
    · intro h
      exact absurd ((hv _).2 h1) h
  · by_cases h2 : r.h.v = Request.HREQUEST_REFERENCE_YZ.v
    · refine ⟨"#YZ", by simp only [Request.DescriptionString, Request.ssprintf_r03x_s, if_neg h1,
        if_pos h2, Option.map],
        Request.hex03_length _, ?_, fun _ => rfl, ?_, ?_⟩
      · intro h
        exact absurd ((hv _).1 h) h1
      · intro h
        rw [(hv _).1 h] at h2
        exact absurd h2 (by decide)
      · intro _ h
        exact absurd ((hv _).2 h2) h
    · by_cases h3 : r.h.v = Request.HREQUEST_REFERENCE_ZX.v
      · refine ⟨"#ZX",
          by simp only [Request.DescriptionString, Request.ssprintf_r03x_s, if_neg h1,
            if_neg h2, if_pos h3, Option.map],
          Request.hex03_length _, ?_, ?_, fun _ => rfl, ?_⟩
        · intro h
          exact absurd ((hv _).1 h) h1
        · intro h
          exact absurd ((hv _).1 h) h2
        · intro _ _ h
          exact absurd ((hv _).2 h3) h
      · obtain ⟨d, hd⟩ := EntReqTable.descriptionForRequest_some r.type
        refine ⟨d,
          by simp only [Request.DescriptionString, Request.ssprintf_r03x_s, if_neg h1,
            if_neg h2, if_neg h3, hd, Option.map],
          Request.hex03_length _, ?_, ?_, ?_, ?_⟩
        · intro h
          exact absurd ((hv _).1 h) h1
        · intro h
          exact absurd ((hv _).1 h) h2
        · intro h
          exact absurd ((hv _).1 h) h3
        · intro _ _ _
          refine ⟨hd, ?_, ?_⟩
          · intro te hte hk
            rw [← hk, EntReqTable.descriptionForRequest_of_row te hte] at hd
            exact hd
          · intro hall
            rw [EntReqTable.descriptionForRequest_unknown r.type hall] at hd
            exact (Option.some.inj hd).symm

/-- C16: the code at a request whose kind has no table row, on empty collections: what
`Generate` adds is not determined by the request, it depends on the value the
uninitialised `et` holds: nothing when that value is zero, one entity of kind `CIRCLE`
when it is `CIRCLE`, one of kind `DISTANCE` when it is `DISTANCE`. -/
theorem generate_unknown_kind_depends_on_et :
    EntReqTable.GetRequestInfo sampleUnknown.type sampleUnknown.extraPoints = none
      ∧ sampleUnknown.addedEntities EntityType.zero emptySketch = []
      ∧ (sampleUnknown.addedEntities EntityType.CIRCLE emptySketch).map (fun e => e.type)
          = [EntityType.CIRCLE]
      ∧ (sampleUnknown.addedEntities EntityType.DISTANCE emptySketch).map (fun e => e.type)
          = [EntityType.DISTANCE] := by
  decide

/-- C17: for a request whose kind has the table row `te`, whatever its `extraPoints`: if
the row has a normal then it is not extendable and has at least one point, so the point
count `Generate` works with is at least one, the block that creates the normal passes
its assertion, and `Generate` returns; and for every row, `Generate` never ends in the
failed assertion. -/
theorem generate_normal_assertion_holds (te : EntReqTable.TableEntry)
    (hte : te ∈ EntReqTable.rows) (r : Request) (hr : r.type = te.reqType)
    (etInit : EntityType) (sk : Sketch) :
    (te.hasNormal = true →
        te.useExtraPoints = false ∧ 1 ≤ te.points ∧ 1 ≤ Request.pointsOf te r
          ∧ (∀ st, ∃ st2, Request.normalBlock r (Request.pointsOf te r) st = Except.ok st2)
          ∧ ∃ sk2, r.Generate etInit sk = Outcome.done sk2)
      ∧ ∀ msg sk2, r.Generate etInit sk ≠ Outcome.fatal msg sk2 := by
  have hM : (MAX_POINTS_IN_ENTITY : Int) = 12 := rfl
  have hbody : r.Generate etInit sk = Request.generateBody r te.entType (Request.pointsOf te r)
      te.hasNormal te.hasDistance sk := by
    unfold Request.Generate
    rw [hr, EntReqTable.getRequestInfo_of_row te hte]
    rfl
  constructor
  · intro hn
    obtain ⟨hx, hp, hp3⟩ := (EntReqTable.row_facts te hte).1 hn
    have heq : Request.pointsOf te r = te.points := by
      rw [Request.pointsOf_eq]
      simp [hx]
    have h1 : 1 ≤ Request.pointsOf te r := by
      rw [heq]
      exact hp
    refine ⟨hx, hp, h1, ?_, _, Request.Generate_of_row te hte r hr etInit sk (by omega)⟩
    intro st
    unfold Request.normalBlock
    by_cases hw : r.workplane.v = Entity.FREE_IN_3D.v <;> simp [hw, h1]
  · intro msg sk2 h
    by_cases hmax : Request.pointsOf te r ≤ (MAX_POINTS_IN_ENTITY : Int)
    · rw [Request.Generate_of_row te hte r hr etInit sk hmax] at h
      exact absurd h (by simp)
    · rw [hbody, Request.generateBody_undefined r _ _ _ _ sk (not_le.1 hmax)] at h
      exact absurd h (by simp)

/-- Witness of C17 on a circle request with `extraPoints = -5`. -/
theorem generate_normal_assertion_holds_witness :
    circleRow ∈ EntReqTable.rows ∧ sampleCircleNegative.type = circleRow.reqType
      ∧ circleRow.hasNormal = true
      ∧ ∃ sk2, sampleCircleNegative.Generate EntityType.zero emptySketch = Outcome.done sk2 :=
  ⟨circleRow_mem, rfl, rfl,
    ((generate_normal_assertion_holds circleRow circleRow_mem sampleCircleNegative rfl
      EntityType.zero emptySketch).1 rfl).2.2.2.2⟩

/-- Counterexample to C18: a line-segment request carrying the text `Abc` and the font
`a.ttf` is not of the kind `TTF_TEXT`, and the line-segment entity that `Generate` adds
for it carries that text and that font. And for a cubic request with thirteen points
the store to `e.point[12]` falls outside the array, inside the record `e` whose fields
the claim describes: the run is undefined and no primary entity is added by a call
that returns. -/
theorem generate_line_keeps_text :
    (sampleLineWithText.type ≠ RequestType.TTF_TEXT
      ∧ ∃ e ∈ sampleLineWithText.addedEntities EntityType.zero emptySketch,
          e.type = EntityType.LINE_SEGMENT ∧ e.str = "Abc" ∧ e.font = "a.ttf"
            ∧ e.str ≠ "" ∧ e.font ≠ "")
      ∧ sampleCubic13WithText.Generate EntityType.zero emptySketch
          = Outcome.undefined
              (sampleCubic13WithText.Generate EntityType.zero emptySketch).sketch := by
  decide

/-- C18 (amended): for a request whose kind has a table row with a non-null entity kind
and whose point count is at most `MAX_POINTS_IN_ENTITY`, the entity of that kind that `Generate` adds has handle `h.entity(0)` and carries the
request's extra-point count, group, style, workplane, construction flag, text string and
font, whatever the kind is. -/
theorem generate_primary_copies (te : EntReqTable.TableEntry) (hte : te ∈ EntReqTable.rows)
    (hnz : te.entType ≠ EntityType.zero) (r : Request) (hr : r.type = te.reqType)
    (etInit : EntityType) (sk : Sketch)
    (hmax : Request.pointsOf te r ≤ (MAX_POINTS_IN_ENTITY : Int)) :
    ∃ e ∈ r.addedEntities etInit sk, e.type = te.entType ∧ e.h = r.h.entity 0
      ∧ e.extraPoints = r.extraPoints ∧ e.group = r.group ∧ e.style = r.style
      ∧ e.workplane = r.workplane ∧ e.construction = r.construction
      ∧ e.str = r.str ∧ e.font = r.font := by
  obtain ⟨c1, c2, c3, c4, c5, c6, c7⟩ := Request.primaryFinal_copied r te.entType
    (Request.pointsOf te r) te.hasNormal te.hasDistance
  refine ⟨Request.primaryFinal r te.entType (Request.pointsOf te r) te.hasNormal
    te.hasDistance, ?_, Request.primaryFinal_type _ _ _ _ _,
    (Request.primaryFinal_fields _ _ _ _ _).1, c1, c2, c3, c4, c5, c6, c7⟩
  rw [Request.addedEntities_of_row te hte r hr etInit sk hmax]
  simp [Request.expectedEntities, hnz]

/-- Witness of C18 (amended) on a line-segment request that carries a text. -/
theorem generate_primary_copies_witness :
    lineRow ∈ EntReqTable.rows ∧ lineRow.entType ≠ EntityType.zero
      ∧ sampleLineWithText.type = lineRow.reqType
      ∧ Request.pointsOf lineRow sampleLineWithText ≤ (MAX_POINTS_IN_ENTITY : Int)
      ∧ ∃ e ∈ sampleLineWithText.addedEntities EntityType.zero emptySketch,
          e.type = lineRow.entType ∧ e.h = sampleLineWithText.h.entity 0
            ∧ e.extraPoints = sampleLineWithText.extraPoints
            ∧ e.group = sampleLineWithText.group ∧ e.style = sampleLineWithText.style
            ∧ e.workplane = sampleLineWithText.workplane
            ∧ e.construction = sampleLineWithText.construction
            ∧ e.str = sampleLineWithText.str ∧ e.font = sampleLineWithText.font :=
  ⟨lineRow_mem, by decide, rfl, by decide,
    generate_primary_copies lineRow lineRow_mem (by decide) sampleLineWithText rfl
      EntityType.zero emptySketch (by decide)⟩

/-- Counterexample to C19: a cubic request with a thousand extra points builds a primary
entity, but the loop stores a point handle past the end of its point-slot array at
`i = MAX_POINTS_IN_ENTITY`: the run is undefined there, before the primary entity is
inserted, and the call does not return. -/
theorem generate_thousand_points_undefined :
    sampleCubic1004.type = cubicRow.reqType ∧ cubicRow.entType ≠ EntityType.zero
      ∧ Request.pointsOf cubicRow sampleCubic1004 = 1004
      ∧ sampleCubic1004.Generate EntityType.zero emptySketch
          = Outcome.undefined (sampleCubic1004.Generate EntityType.zero emptySketch).sketch
      ∧ ∀ e ∈ (sampleCubic1004.Generate EntityType.zero emptySketch).sketch.entity,
          e.type ≠ EntityType.CUBIC := by
  decide

/-- C19 (amended): for a request whose kind has a table row with a non-null entity kind
and whose point count is at most `MAX_POINTS_IN_ENTITY`, the
entities `Generate` adds are, in the order of insertion, point, normal and distance
entities followed by the entity of the row's kind, which comes last; the points before
it are all the added points, a normal and a distance are before it when the row has
them; and the inserted entity has handle `h.entity(0)`, holds in point slot `i` the
handle of the `i`-th point (for `i` below the point count and inside the slot array),
and holds the handles of that normal and that distance. -/
theorem generate_primary_last (te : EntReqTable.TableEntry) (hte : te ∈ EntReqTable.rows)
    (hnz : te.entType ≠ EntityType.zero) (r : Request) (hr : r.type = te.reqType)
    (etInit : EntityType) (sk : Sketch)
    (hmax : Request.pointsOf te r ≤ (MAX_POINTS_IN_ENTITY : Int)) :
    ∃ pre e, r.addedEntities etInit sk = pre ++ [e]
      ∧ e.type = te.entType ∧ e.h = r.h.entity 0
      ∧ (∀ x ∈ pre, x.isPoint = true ∨ x.isNormal = true ∨ x.isDistance = true)
      ∧ pre.filter Entity.isPoint = r.addedPoints etInit sk
      ∧ (∀ i : Nat, (i : Int) < Request.pointsOf te r → i < MAX_POINTS_IN_ENTITY →
          ∃ p, (pre.filter Entity.isPoint)[i]? = some p ∧ e.pointAt i = p.h)
      ∧ (te.hasNormal = true → ∃ n ∈ pre, n.isNormal = true ∧ e.normal = n.h)
      ∧ (te.hasDistance = true → ∃ d ∈ pre, d.isDistance = true ∧ e.distance = d.h) := by
  have hadd := Request.addedEntities_of_row te hte r hr etInit sk hmax
  have hpts := Request.addedPoints_of_row te hte r hr etInit sk hmax
  obtain ⟨pf1, _, pf3, pf4, pf5⟩ := Request.primaryFinal_fields r te.entType
    (Request.pointsOf te r) te.hasNormal te.hasDistance
  have hN := fun e => Request.normalEntity_kinds r e
  have hD := Request.distanceEntity_kinds r
  have hfilter : ((List.range (Request.pointsOf te r).toNat).map
      (Request.pointEntity r te.entType)).filter Entity.isPoint
        = (List.range (Request.pointsOf te r).toNat).map (Request.pointEntity r te.entType) := by
    rw [List.filter_eq_self]
    intro a ha
    obtain ⟨i, _, rfl⟩ := List.mem_map.1 ha
    exact Request.pointEntity_isPoint r te.entType i
  have hpre : (((List.range (Request.pointsOf te r).toNat).map
      (Request.pointEntity r te.entType)
        ++ (if te.hasNormal then [Request.normalEntity r (Request.primaryAfter r te.entType
              (Request.pointsOf te r).toNat (Request.primaryInit r te.entType))] else []))
        ++ (if te.hasDistance then [Request.distanceEntity r] else [])).filter Entity.isPoint
        = (List.range (Request.pointsOf te r).toNat).map (Request.pointEntity r te.entType) := by
    simp only [List.filter_append, hfilter]
    cases te.hasNormal <;> cases te.hasDistance <;> simp [hN, hD]
  refine ⟨((List.range (Request.pointsOf te r).toNat).map (Request.pointEntity r te.entType)
      ++ (if te.hasNormal then [Request.normalEntity r (Request.primaryAfter r te.entType
            (Request.pointsOf te r).toNat (Request.primaryInit r te.entType))] else []))
      ++ (if te.hasDistance then [Request.distanceEntity r] else []),
    Request.primaryFinal r te.entType (Request.pointsOf te r) te.hasNormal te.hasDistance,
    ?_, Request.primaryFinal_type _ _ _ _ _, pf1, ?_, ?_, ?_, ?_, ?_⟩
  · rw [hadd]
    unfold Request.expectedEntities
    rw [if_pos hnz]
  · intro x hx
    simp only [List.mem_append, List.mem_map, List.mem_range] at hx
    rcases hx with (⟨i, _, rfl⟩ | hx) | hx
    · exact Or.inl (Request.pointEntity_isPoint r te.entType i)
    · cases hn : te.hasNormal <;> simp [hn] at hx
      subst hx
      exact Or.inr (Or.inl (hN _).2.1)
    · cases hd : te.hasDistance <;> simp [hd] at hx
      subst hx
      exact Or.inr (Or.inr hD.2.2)
  · rw [hpre, hpts]
  · intro i hi hmax
    have hi2 : i < (Request.pointsOf te r).toNat := by omega
    refine ⟨Request.pointEntity r te.entType i, by rw [hpre]; simp [hi2], ?_⟩
    unfold Entity.pointAt
    rw [pf3]
    apply Request.slotsAfter_getD r te.entType _ _ i hi2
    simpa [Entity.zeroed] using hmax
  · intro hn
    refine ⟨Request.normalEntity r (Request.primaryAfter r te.entType
      (Request.pointsOf te r).toNat (Request.primaryInit r te.entType)), ?_, (hN _).2.1,
      pf4 hn⟩
    simp [hn]
  · intro hd
    refine ⟨Request.distanceEntity r, ?_, hD.2.2, pf5 hd⟩
    simp [hd]

/-- Witness of C19 on a circle request free in 3D. -/
theorem generate_primary_last_witness :
    circleRow ∈ EntReqTable.rows ∧ circleRow.entType ≠ EntityType.zero
      ∧ sampleCircle3d.type = circleRow.reqType
      ∧ Request.pointsOf circleRow sampleCircle3d ≤ (MAX_POINTS_IN_ENTITY : Int)
      ∧ ∃ pre e, sampleCircle3d.addedEntities EntityType.zero emptySketch = pre ++ [e]
        ∧ e.type = circleRow.entType ∧ e.h = sampleCircle3d.h.entity 0
        ∧ (∀ x ∈ pre, x.isPoint = true ∨ x.isNormal = true ∨ x.isDistance = true)
        ∧ pre.filter Entity.isPoint = sampleCircle3d.addedPoints EntityType.zero emptySketch
        ∧ (∀ i : Nat, (i : Int) < Request.pointsOf circleRow sampleCircle3d →
            i < MAX_POINTS_IN_ENTITY →
            ∃ p, (pre.filter Entity.isPoint)[i]? = some p ∧ e.pointAt i = p.h)
        ∧ (circleRow.hasNormal = true → ∃ n ∈ pre, n.isNormal = true ∧ e.normal = n.h)
        ∧ (circleRow.hasDistance = true →
            ∃ d ∈ pre, d.isDistance = true ∧ e.distance = d.h) :=
  ⟨circleRow_mem, by decide, rfl, by decide,
    generate_primary_last circleRow circleRow_mem (by decide) sampleCircle3d rfl
      EntityType.zero emptySketch (by decide)⟩

end SolveSpace
